import Mathlib

/-!
Verification development for the HealthIQ backend analytics pipeline.

The TypeScript sources modelled here are:
* the concept extractor (src/unnamed/part_008, first module);
* the batch graph builder buildGraphFromEvents (src/unnamed/part_009, first module)
  and the incremental builder processEventForGraph
  (src/backend/analytics/HealthGraphBuilder.ts, in-memory mode);
* the two Health Stability Index scorer variants in src/unnamed/part_009
  (the stateless one, suffixed S here, and the persistence-backed one, suffixed P);
* the alert engine (src/unnamed/part_008 second module, identical rule logic to
  src/backend/analytics/AlertEngine.ts up to persistence-only fields).

Modelling conventions:
* JavaScript numbers are modelled by rationals (the code only adds, multiplies
  and divides small quantities and compares against thresholds); Math.sqrt is
  modelled by Real.sqrt, Math.round by rounding half toward positive infinity.
* A timestamp carries its raw ISO string (absolute) together with parsedMs, the
  result of Date.parse on it: some ms when the string parses, none when the JS
  Date would be Invalid (NaN).  Comparisons involving NaN are false, which the
  jsLe and jsLt helpers reproduce.
* A for loop over a collection is translated as a fold or flat map over the
  list of iterated items; JS Map objects (insertion-ordered) are translated as
  association lists with append-at-end insertion.
-/

namespace HealthIQ

/-- JS Math.round on a rational: round half toward positive infinity.
(Rat.floor is the computable floor; jsRound_eq relates it to Int.floor.) -/
def jsRound (q : ℚ) : ℤ := Rat.floor (q + 1/2)

/-- JS Math.round on a real: round half toward positive infinity. -/
noncomputable def jsRoundR (x : ℝ) : ℤ := ⌊x + 1/2⌋

/-- JS comparison a ≤ b where either side may be NaN (modelled by none). -/
def jsLe : Option ℤ → Option ℤ → Bool
  | some a, some b => a ≤ b
  | _, _ => false

/-- JS comparison a < b where either side may be NaN (modelled by none). -/
def jsLt : Option ℤ → Option ℤ → Bool
  | some a, some b => a < b
  | _, _ => false

/-- JS comparison on a possibly-NaN rational against a literal. -/
def jsLtQ : Option ℚ → ℚ → Bool
  | some a, b => a < b
  | none, _ => false

/-- Absolute difference of two possibly-NaN times is at most w
(Math.abs(a-b) <= w; false when NaN is involved). -/
def jsAbsLe (a b : Option ℤ) (w : ℤ) : Bool
  := match a, b with
  | some x, some y => |x - y| ≤ w
  | _, _ => false

/-- Absolute difference of two possibly-NaN times exceeds w
(Math.abs(a-b) > w; false when NaN is involved, since NaN > w is false). -/
def jsAbsGt (a b : Option ℤ) (w : ℤ) : Bool
  := match a, b with
  | some x, some y => w < |x - y|
  | _, _ => false

/-- Timestamp of an event: the raw ISO string together with the result of
Date.parse on it (some milliseconds when parseable, none for NaN / Invalid
Date).  Well-formedness of a timestamp is parsedMs.isSome. -/
structure TS where
  absolute : String
  parsedMs : Option ℤ
deriving DecidableEq, Repr

/-- Closed union of HealthEvent kinds (domain/HealthEvent.ts). -/
inductive EventType
  | symptom | medication | lifestyle | clinical | insight
deriving DecidableEq, Repr

/-- One flat record holding the fields of every HealthEvent variant; the
eventType discriminates which payload fields are meaningful, exactly as the
TypeScript tagged union does. -/
structure Event where
  id : String
  eventType : EventType
  ts : TS
  description : String
  intensity : Option String
  name : String
  adherenceOutcome : String
  sleep : Option String
  stress : Option String
  activity : Option String
  food : Option String
  diagnosisLabel : Option String
deriving DecidableEq, Repr

/-- Symptom event constructor for concrete examples. -/
def symEvent (id : String) (abs : String) (ms : Option ℤ)
    (desc : String) (inten : Option String) : Event :=
  ⟨id, .symptom, ⟨abs, ms⟩, desc, inten, "", "", none, none, none, none, none⟩

/-- Medication event constructor for concrete examples. -/
def medEvent (id : String) (abs : String) (ms : Option ℤ)
    (name : String) (outcome : String) : Event :=
  ⟨id, .medication, ⟨abs, ms⟩, "", none, name, outcome, none, none, none, none, none⟩

/-- Lifestyle event constructor for concrete examples. -/
def lifeEvent (id : String) (abs : String) (ms : Option ℤ)
    (sleep stress activity food : Option String) : Event :=
  ⟨id, .lifestyle, ⟨abs, ms⟩, "", none, "", "", sleep, stress, activity, food, none⟩

-- =========================================================================
-- Concept extractor (src/unnamed/part_008, first module)
-- =========================================================================

/-- Extracted concept: normalized label, category, source event, timestamp.
The timestamp field carries the event timestamp (the source stores the ISO
string event.timestamp.absolute; we keep the whole TS so both the string and
its parse are available exactly where the source uses them). -/
structure ExtractedConcept where
  concept : String
  category : String
  sourceEventId : String
  timestamp : TS
deriving DecidableEq, Repr

/-- Characters kept by the normalization regex [^a-z0-9\s'-] (applied after
toLowerCase). -/
def isKeptChar (c : Char) : Bool :=
  (decide (Char.ofNat 97 ≤ c) && decide (c ≤ Char.ofNat 122))
  || (decide (Char.ofNat 48 ≤ c) && decide (c ≤ Char.ofNat 57))
  || c.isWhitespace || c = Char.ofNat 39 || c = Char.ofNat 45

/-- Collapse every whitespace run to the single character repl
(the replace(/\s+/g, repl) step). -/
def collapseRuns (repl : Char) : List Char → List Char
  | [] => []
  | [c] => if c.isWhitespace then [repl] else [c]
  | c :: d :: cs =>
    if c.isWhitespace then
      (if d.isWhitespace then collapseRuns repl (d :: cs)
       else repl :: collapseRuns repl (d :: cs))
    else c :: collapseRuns repl (d :: cs)

/-- Strip leading and trailing whitespace (the JS trim step). -/
def trimChars (l : List Char) : List Char :=
  ((l.dropWhile Char.isWhitespace).reverse.dropWhile Char.isWhitespace).reverse

/-- normalizeText: lowercase, trim, strip characters outside [a-z0-9\s'-],
collapse whitespace runs to single spaces. -/
def normalizeText (s : String) : String :=
  String.mk
    (collapseRuns ' '
      ((trimChars (s.toList.map Char.toLower)).filter isKeptChar))

/-- JS str.split(sep-char): adjacent separators yield empty fragments and the
empty string yields one empty fragment. -/
def splitOnChar (sep : Char) : List Char → List (List Char)
  | [] => [[]]
  | c :: t =>
    match splitOnChar sep t with
    | [] => [[]]
    | h :: rest => if c = sep then [] :: h :: rest else (c :: h) :: rest

/-- JS parts.join(sep-char). -/
def joinWithChar (sep : Char) : List (List Char) → List Char
  | [] => []
  | [x] => x
  | x :: y :: rest => x ++ sep :: joinWithChar sep (y :: rest)

/-- Replace whitespace runs by underscores (the replace(/\s+/g, underscore)
step applied to medication names and diagnosis labels). -/
def underscoreWS (s : String) : String :=
  String.mk (collapseRuns (Char.ofNat 95) s.toList)

/-- Check whether needle occurs as a contiguous run inside hay. -/
def listContains (needle : List Char) : List Char → Bool
  | [] => needle.isEmpty
  | c :: t => needle.isPrefixOf (c :: t) || listContains needle t

/-- JS hay.includes(needle). -/
def strIncludes (hay needle : String) : Bool :=
  listContains needle.toList hay.toList

/-- SYMPTOM_SYNONYMS table, in declaration order. -/
def SYMPTOM_SYNONYMS : List (String × String) :=
  [("headache", "headache"), ("head pain", "headache"), ("migraine", "migraine"),
   ("head ache", "headache"), ("cephalgia", "headache"), ("nausea", "nausea"),
   ("feeling sick", "nausea"), ("queasy", "nausea"), ("vomiting", "vomiting"),
   ("throwing up", "vomiting"), ("fatigue", "fatigue"), ("tired", "fatigue"),
   ("exhaustion", "fatigue"), ("exhausted", "fatigue"), ("low energy", "fatigue"),
   ("insomnia", "insomnia"), ("trouble sleeping", "insomnia"),
   ("can't sleep", "insomnia"), ("difficulty sleeping", "insomnia"),
   ("back pain", "back_pain"), ("backache", "back_pain"),
   ("stomach pain", "stomach_pain"), ("abdominal pain", "stomach_pain"),
   ("belly pain", "stomach_pain"), ("chest pain", "chest_pain"),
   ("joint pain", "joint_pain"), ("arthralgia", "joint_pain"),
   ("dizziness", "dizziness"), ("dizzy", "dizziness"),
   ("lightheaded", "dizziness"), ("vertigo", "dizziness"),
   ("anxiety", "anxiety"), ("anxious", "anxiety"), ("worried", "anxiety"),
   ("depression", "depression"), ("depressed", "depression"),
   ("feeling down", "depression"), ("low mood", "depression"),
   ("cough", "cough"), ("coughing", "cough"), ("fever", "fever"),
   ("high temperature", "fever"), ("sore throat", "sore_throat"),
   ("throat pain", "sore_throat"), ("shortness of breath", "shortness_of_breath"),
   ("breathlessness", "shortness_of_breath"),
   ("difficulty breathing", "shortness_of_breath"), ("rash", "rash"),
   ("skin rash", "rash"), ("hives", "rash"), ("muscle pain", "muscle_pain"),
   ("myalgia", "muscle_pain"), ("constipation", "constipation"),
   ("diarrhea", "diarrhea"), ("bloating", "bloating"), ("swelling", "swelling"),
   ("palpitations", "palpitations"), ("heart racing", "palpitations"),
   ("weight gain", "weight_change"), ("weight loss", "weight_change")]

/-- LIFESTYLE_KEYWORDS table, in declaration order. -/
def LIFESTYLE_KEYWORDS : List (String × List String) :=
  [("poor_sleep", ["poor sleep", "bad sleep", "didn't sleep", "insomnia",
                   "restless", "woke up"]),
   ("good_sleep", ["good sleep", "slept well", "rested", "8 hours"]),
   ("high_stress", ["stressed", "high stress", "stressful", "anxious",
                    "overwhelmed", "pressure"]),
   ("low_stress", ["relaxed", "calm", "no stress", "peaceful"]),
   ("exercise", ["exercise", "workout", "gym", "running", "walking", "yoga",
                 "swimming"]),
   ("sedentary", ["sedentary", "no exercise", "inactive", "sat all day"]),
   ("healthy_eating", ["healthy food", "vegetables", "balanced", "fruits",
                       "salad"]),
   ("unhealthy_eating", ["junk food", "fast food", "skipped meal", "sugar",
                         "alcohol"])]

/-- extractSymptomConcept: every synonym phrase contained in the normalized
description yields a concept; with no match, the first four normalized tokens
joined by underscores, or the unclassified fallback when empty. -/
def extractSymptomConcept (e : Event) : List ExtractedConcept :=
  let normalized := normalizeText e.description
  let hits := SYMPTOM_SYNONYMS.filterMap (fun p =>
    if strIncludes normalized p.1 then
      some ⟨p.2, "symptom", e.id, e.ts⟩
    else none)
  if hits.isEmpty then
    let shortDesc := String.mk
      (joinWithChar (Char.ofNat 95) ((splitOnChar ' ' normalized.toList).take 4))
    [⟨if shortDesc = "" then "unclassified_symptom" else shortDesc,
      "symptom", e.id, e.ts⟩]
  else hits

/-- extractMedicationConcept: the normalized, underscore-joined name, or the
unknown fallback when empty. -/
def extractMedicationConcept (e : Event) : List ExtractedConcept :=
  let medName := underscoreWS (normalizeText e.name)
  [⟨if medName = "" then "unknown_medication" else medName,
    "medication", e.id, e.ts⟩]

/-- extractLifestyleConcept: keyword groups matching the concatenated
sleep/stress/activity/food text; lifestyle_logged fallback when text is
present but nothing matched. -/
def extractLifestyleConcept (e : Event) : List ExtractedConcept :=
  let fields := ([e.sleep, e.stress, e.activity, e.food].filterMap id).filter
    (fun s => s ≠ "")
  let combined := String.mk (joinWithChar ' ' (fields.map String.toList))
  let normalized := normalizeText combined
  let hits := LIFESTYLE_KEYWORDS.filterMap (fun p =>
    if p.2.any (fun kw => strIncludes normalized kw) then
      some ⟨p.1, "lifestyle", e.id, e.ts⟩
    else none)
  if hits.isEmpty && combined.length > 0 then
    [⟨"lifestyle_logged", "lifestyle", e.id, e.ts⟩]
  else hits

/-- extractClinicalConcept: a normalized diagnosis-label concept when present
(truthy), then always doctor_visit, in that push order. -/
def extractClinicalConcept (e : Event) : List ExtractedConcept :=
  (match e.diagnosisLabel with
   | some d => if d ≠ "" then
       [⟨underscoreWS (normalizeText d), "clinical", e.id, e.ts⟩]
     else []
   | none => []) ++ [⟨"doctor_visit", "clinical", e.id, e.ts⟩]

/-- extractConcepts: dispatch on the event type; insights emit nothing. -/
def extractConcepts (e : Event) : List ExtractedConcept :=
  match e.eventType with
  | .symptom => extractSymptomConcept e
  | .medication => extractMedicationConcept e
  | .lifestyle => extractLifestyleConcept e
  | .clinical => extractClinicalConcept e
  | .insight => []

-- =========================================================================
-- Graph builder: batch (src/unnamed/part_009, buildGraphFromEvents) and
-- incremental (src/backend/analytics/HealthGraphBuilder.ts, in-memory mode)
-- =========================================================================

/-- Node identity key: the concept|category map key of the source. -/
abbrev NodeKey := String × String

/-- Edge relation kinds. -/
inductive Relation
  | co_occurrence | temporal_sequence | reported_trigger | medication_response
deriving DecidableEq, Repr

/-- Edge identity key: source node, target node, relation.  Node ids in the
source are node-N strings assigned one per fresh (concept, category) key, so
node-id equality coincides with NodeKey equality; we use the key itself. -/
abbrev EdgeKey := NodeKey × NodeKey × Relation

/-- Association-list lookup (first binding wins; keys are inserted at most
once by the upsert functions, mirroring the JS Map). -/
def alLookup {κ α : Type} [DecidableEq κ] : List (κ × α) → κ → Option α
  | [], _ => none
  | (k', v) :: t, k => if k' = k then some v else alLookup t k

/-- Update the value bound to a key in place (the binding alLookup finds), as
mutation of the JS Map entry does. -/
def alUpdate {κ α : Type} [DecidableEq κ] : List (κ × α) → κ → (α → α) →
    List (κ × α)
  | [], _, _ => []
  | (k', v) :: t, k, f =>
      if k' = k then (k', f v) :: t else (k', v) :: alUpdate t k f

/-- Node record of the batch builder. -/
structure BatchNode where
  occurrenceCount : ℕ
  firstSeen : String
  lastSeen : String
deriving DecidableEq, Repr

/-- Edge record of the batch builder. -/
structure BatchEdge where
  weight : ℚ
  firstObserved : String
  lastObserved : String
deriving DecidableEq, Repr

/-- Node record of the incremental in-memory store. -/
structure IncrNode where
  occurrenceCount : ℕ
  firstSeen : String
  lastSeen : String
deriving DecidableEq, Repr

/-- Edge record of the incremental in-memory store. -/
structure IncrEdge where
  weight : ℚ
  evidenceEventIds : List String
  firstObserved : String
  lastObserved : String
deriving DecidableEq, Repr

/-- Key of an extracted concept. -/
def conceptKey (c : ExtractedConcept) : NodeKey := (c.concept, c.category)

/-- Batch upsertNode: on an existing key increment the count and widen the
firstSeen/lastSeen span by string comparison of ISO timestamps; otherwise
insert a fresh node with count 1. -/
def upsertNodeB (m : List (NodeKey × BatchNode)) (c : ExtractedConcept) :
    List (NodeKey × BatchNode) :=
  match alLookup m (conceptKey c) with
  | some _ =>
      alUpdate m (conceptKey c) (fun n =>
        ⟨n.occurrenceCount + 1,
         if c.timestamp.absolute < n.firstSeen then c.timestamp.absolute
         else n.firstSeen,
         if n.lastSeen < c.timestamp.absolute then c.timestamp.absolute
         else n.lastSeen⟩)
  | none => m ++ [(conceptKey c, ⟨1, c.timestamp.absolute, c.timestamp.absolute⟩)]

/-- Batch upsertEdge: self-loops are dropped; an existing key gains 0.5
weight and possibly a later lastObserved; a fresh key starts at weight 1.0. -/
def upsertEdgeB (m : List (EdgeKey × BatchEdge)) (src tgt : NodeKey)
    (rel : Relation) (ts : String) : List (EdgeKey × BatchEdge) :=
  if src = tgt then m
  else
    match alLookup m ((src, tgt, rel) : EdgeKey) with
    | some _ =>
        alUpdate m ((src, tgt, rel) : EdgeKey) (fun e =>
          ⟨e.weight + 1/2, e.firstObserved,
           if e.lastObserved < ts then ts else e.lastObserved⟩)
    | none => m ++ [(((src, tgt, rel) : EdgeKey), ⟨1, ts, ts⟩)]

/-- Incremental upsertNode (in-memory mode): an existing key gets lastSeen
overwritten unconditionally and the count incremented; a fresh key is
inserted with count 1. -/
def upsertNodeI (m : List (NodeKey × IncrNode)) (c : ExtractedConcept) :
    List (NodeKey × IncrNode) :=
  match alLookup m (conceptKey c) with
  | some _ =>
      alUpdate m (conceptKey c) (fun n =>
        ⟨n.occurrenceCount + 1, n.firstSeen, c.timestamp.absolute⟩)
  | none => m ++ [(conceptKey c, ⟨1, c.timestamp.absolute, c.timestamp.absolute⟩)]

/-- Incremental upsertEdge (in-memory mode): self-loops dropped; an existing
key gains 0.5 weight, an appended evidence id and a new lastObserved; a fresh
key starts at weight 1.0 with the event as evidence. -/
def upsertEdgeI (m : List (EdgeKey × IncrEdge)) (src tgt : NodeKey)
    (rel : Relation) (eventId ts : String) : List (EdgeKey × IncrEdge) :=
  if src = tgt then m
  else
    match alLookup m ((src, tgt, rel) : EdgeKey) with
    | some _ =>
        alUpdate m ((src, tgt, rel) : EdgeKey) (fun e =>
          ⟨e.weight + 1/2, e.evidenceEventIds ++ [eventId], e.firstObserved, ts⟩)
    | none => m ++ [(((src, tgt, rel) : EdgeKey), ⟨1, [eventId], ts, ts⟩)]

/-- Co-occurrence window in milliseconds (48 hours). -/
def coWindowMs : ℤ := 48 * 60 * 60 * 1000

/-- Relation chosen by the batch builder for a cross-event concept pair
(if / else-if chain on the two categories). -/
def relationFor (catA catB : String) : Relation :=
  if (catA = "medication" ∧ catB = "symptom")
     ∨ (catA = "symptom" ∧ catB = "medication") then .medication_response
  else if (catA = "lifestyle" ∧ catB = "symptom")
     ∨ (catA = "symptom" ∧ catB = "lifestyle") then .temporal_sequence
  else .co_occurrence

/-- Relation chosen by the incremental builder: two successive non-exclusive
if statements, the second overwriting the first when it matches. -/
def relationForI (catA catB : String) : Relation :=
  let r : Relation :=
    if (catA = "medication" ∧ catB = "symptom")
       ∨ (catA = "symptom" ∧ catB = "medication") then .medication_response
    else .co_occurrence
  if (catA = "lifestyle" ∧ catB = "symptom")
     ∨ (catA = "symptom" ∧ catB = "lifestyle") then .temporal_sequence
  else r

/-- One pending upsertEdge invocation: key data, evidence event id (used only
by the incremental store) and the timestamp argument. -/
structure EdgeCall where
  src : NodeKey
  tgt : NodeKey
  rel : Relation
  evId : String
  ts : String
deriving DecidableEq, Repr

/-- Key part of a pending edge upsert. -/
def callKey (c : EdgeCall) : EdgeKey := (c.src, c.tgt, c.rel)

/-- Batch node phase: upsert a node per extracted concept of every event, in
input order, also returning each event paired with its concepts. -/
def batchNodePhase (events : List Event) :
    List (NodeKey × BatchNode) × List (Event × List ExtractedConcept) :=
  events.foldl (fun acc e =>
    let cs := extractConcepts e
    (cs.foldl upsertNodeB acc.1, acc.2 ++ [(e, cs)])) ([], [])

/-- Edge upserts generated by one ordered batch pair (current, other): skipped
entirely when the timestamps are more than the window apart (the continue),
otherwise one call per cross-event concept pair with distinct node keys,
directed from the earlier event (ties to current, the lower index). -/
def crossCallsB (cur other : Event × List ExtractedConcept) : List EdgeCall :=
  if jsAbsGt cur.1.ts.parsedMs other.1.ts.parsedMs coWindowMs then []
  else
    cur.2.flatMap (fun cN =>
      other.2.filterMap (fun oN =>
        if conceptKey cN = conceptKey oN then none
        else
          let rel := relationFor cN.category oN.category
          some (if jsLe cur.1.ts.parsedMs other.1.ts.parsedMs then
                  ⟨conceptKey cN, conceptKey oN, rel, cur.1.id, cur.1.ts.absolute⟩
                else
                  ⟨conceptKey oN, conceptKey cN, rel, cur.1.id, cur.1.ts.absolute⟩)))

/-- Edge upserts of the whole batch double loop, in iteration order: each
index i against every j greater than i. -/
def batchPairsCalls : List (Event × List ExtractedConcept) → List EdgeCall
  | [] => []
  | x :: xs => (xs.flatMap (crossCallsB x)) ++ batchPairsCalls xs

/-- Core of buildGraphFromEvents: the full node and edge maps before the
top-N summary is taken. -/
def buildGraphMaps (events : List Event) :
    List (NodeKey × BatchNode) × List (EdgeKey × BatchEdge) :=
  let p := batchNodePhase events
  (p.1, (batchPairsCalls p.2).foldl
    (fun m c => upsertEdgeB m c.src c.tgt c.rel c.ts) [])

/-- Per-identity in-memory graph store. -/
structure GraphStore where
  nodes : List (NodeKey × IncrNode)
  edges : List (EdgeKey × IncrEdge)
deriving DecidableEq, Repr

/-- Edge upserts generated by processEventForGraph once its recent concepts
are known. -/
def incrCallsOf (event : Event) (concepts recentConcepts : List ExtractedConcept) :
    List EdgeCall :=
  concepts.flatMap (fun newC =>
    recentConcepts.filterMap (fun recC =>
      if conceptKey newC = conceptKey recC then none
      else
        let rel := relationForI newC.category recC.category
        some (if jsLe recC.timestamp.parsedMs newC.timestamp.parsedMs then
                ⟨conceptKey recC, conceptKey newC, rel, event.id, event.ts.absolute⟩
              else
                ⟨conceptKey newC, conceptKey recC, rel, event.id, event.ts.absolute⟩)))

/-- Historical events admitted to the co-occurrence comparison: a different
id and within the 48h window (NaN comparisons admit nothing). -/
def recentOk (event : Event) (recentEvents : List Event) : List Event :=
  recentEvents.filter (fun r =>
    decide (r.id ≠ event.id) && jsAbsLe event.ts.parsedMs r.ts.parsedMs coWindowMs)

/-- processEventForGraph (in-memory mode): upsert the event's own concept
nodes, re-extract and re-upsert the concepts of every admitted recent event,
then upsert one edge per (new concept, recent concept) pair with distinct
keys, directed from the earlier timestamp (ties to the recent concept). -/
def processEventForGraph (store : GraphStore) (event : Event)
    (recentEvents : List Event) : GraphStore :=
  let concepts := extractConcepts event
  if concepts.isEmpty then store
  else
    let nodes1 := concepts.foldl upsertNodeI store.nodes
    let recentConcepts := (recentOk event recentEvents).flatMap extractConcepts
    let nodes2 := recentConcepts.foldl upsertNodeI nodes1
    ⟨nodes2,
     (incrCallsOf event concepts recentConcepts).foldl
       (fun m c => upsertEdgeI m c.src c.tgt c.rel c.evId c.ts) store.edges⟩

/-- Process a list of events one at a time, each call receiving the full
preceding history as its recent events. -/
def runIncrementalFrom (store : GraphStore) (hist : List Event) :
    List Event → GraphStore
  | [] => store
  | e :: rest =>
      runIncrementalFrom (processEventForGraph store e hist) (hist ++ [e]) rest

/-- Incremental processing of a whole sequence starting from the empty
store. -/
def runIncremental (events : List Event) : GraphStore :=
  runIncrementalFrom ⟨[], []⟩ [] events

-- =========================================================================
-- Association-list and edge-weight evolution lemmas
-- =========================================================================

theorem alLookup_update_eq {κ α : Type} [DecidableEq κ] (m : List (κ × α))
    (k : κ) (f : α → α) :
    alLookup (alUpdate m k f) k = (alLookup m k).map f := by
  induction m with
  | nil => rfl
  | cons p t ih =>
    obtain ⟨a, b⟩ := p
    by_cases hp : a = k
    · have e1 : alUpdate ((a, b) :: t) k f = (a, f b) :: t := by
        simp [alUpdate, hp]
      rw [e1]
      simp [alLookup, hp]
    · have e1 : alUpdate ((a, b) :: t) k f = (a, b) :: alUpdate t k f := by
        simp [alUpdate, hp]
      rw [e1]
      simp [alLookup, hp, ih]

theorem alLookup_update_ne {κ α : Type} [DecidableEq κ] (m : List (κ × α))
    (k k' : κ) (f : α → α) (h : k' ≠ k) :
    alLookup (alUpdate m k f) k' = alLookup m k' := by
  induction m with
  | nil => rfl
  | cons p t ih =>
    obtain ⟨a, b⟩ := p
    by_cases hp : a = k
    · have e1 : alUpdate ((a, b) :: t) k f = (a, f b) :: t := by
        simp [alUpdate, hp]
      rw [e1]
      have ha : a ≠ k' := by rw [hp]; exact fun hh => h hh.symm
      simp [alLookup, ha]
    · have e1 : alUpdate ((a, b) :: t) k f = (a, b) :: alUpdate t k f := by
        simp [alUpdate, hp]
      rw [e1]
      by_cases ha : a = k'
      · simp [alLookup, ha]
      · simp [alLookup, ha, ih]

theorem alLookup_append {κ α : Type} [DecidableEq κ] (m l : List (κ × α))
    (k : κ) :
    alLookup (m ++ l) k =
      (match alLookup m k with
       | some v => some v
       | none => alLookup l k) := by
  induction m with
  | nil => rfl
  | cons p t ih =>
    by_cases h : p.1 = k
    · simp [alLookup, h]
    · simpa [alLookup, h] using ih

/-- Weight stored for an edge key in the batch edge map. -/
def weightAtB (m : List (EdgeKey × BatchEdge)) (k : EdgeKey) : Option ℚ :=
  (alLookup m k).map BatchEdge.weight

/-- Weight stored for an edge key in the incremental edge map. -/
def weightAtI (m : List (EdgeKey × IncrEdge)) (k : EdgeKey) : Option ℚ :=
  (alLookup m k).map IncrEdge.weight

/-- Effect of one upsert on the weight of its own key: absent keys start at
1.0, present keys gain 0.5. -/
def stepW : Option ℚ → Option ℚ
  | some w => some (w + 1/2)
  | none => some 1

theorem upsertEdgeB_weightAt (m : List (EdgeKey × BatchEdge))
    (s t : NodeKey) (rel : Relation) (ts : String) (k : EdgeKey) :
    weightAtB (upsertEdgeB m s t rel ts) k =
      if ((s, t, rel) = k ∧ s ≠ t) then stepW (weightAtB m k)
      else weightAtB m k := by
  unfold upsertEdgeB weightAtB
  by_cases hst : s = t
  · simp [hst]
  · rw [if_neg hst]
    cases hl : alLookup m ((s, t, rel) : EdgeKey) with
    | some e =>
      dsimp only
      by_cases hk : ((s, t, rel) : EdgeKey) = k
      · subst hk
        rw [alLookup_update_eq, hl]
        simp [hst, stepW]
      · have hk' : k ≠ ((s, t, rel) : EdgeKey) := fun h => hk h.symm
        rw [alLookup_update_ne _ _ _ _ hk']
        simp [hst, hk]
    | none =>
      dsimp only
      by_cases hk : ((s, t, rel) : EdgeKey) = k
      · subst hk
        rw [alLookup_append, hl]
        simp [alLookup, hst, stepW]
      · rw [alLookup_append]
        cases h2 : alLookup m k with
        | some v => simp [hst, hk, h2]
        | none => simp [alLookup, hst, hk, h2]

theorem upsertEdgeI_weightAt (m : List (EdgeKey × IncrEdge))
    (s t : NodeKey) (rel : Relation) (evId ts : String) (k : EdgeKey) :
    weightAtI (upsertEdgeI m s t rel evId ts) k =
      if ((s, t, rel) = k ∧ s ≠ t) then stepW (weightAtI m k)
      else weightAtI m k := by
  unfold upsertEdgeI weightAtI
  by_cases hst : s = t
  · simp [hst]
  · rw [if_neg hst]
    cases hl : alLookup m ((s, t, rel) : EdgeKey) with
    | some e =>
      dsimp only
      by_cases hk : ((s, t, rel) : EdgeKey) = k
      · subst hk
        rw [alLookup_update_eq, hl]
        simp [hst, stepW]
      · have hk' : k ≠ ((s, t, rel) : EdgeKey) := fun h => hk h.symm
        rw [alLookup_update_ne _ _ _ _ hk']
        simp [hst, hk]
    | none =>
      dsimp only
      by_cases hk : ((s, t, rel) : EdgeKey) = k
      · subst hk
        rw [alLookup_append, hl]
        simp [alLookup, hst, stepW]
      · rw [alLookup_append]
        cases h2 : alLookup m k with
        | some v => simp [hst, hk, h2]
        | none => simp [alLookup, hst, hk, h2]

/-- Fold a list of pending upserts into the batch edge map. -/
def applyCallsB (m : List (EdgeKey × BatchEdge)) (calls : List EdgeCall) :
    List (EdgeKey × BatchEdge) :=
  calls.foldl (fun m c => upsertEdgeB m c.src c.tgt c.rel c.ts) m

/-- Fold a list of pending upserts into the incremental edge map. -/
def applyCallsI (m : List (EdgeKey × IncrEdge)) (calls : List EdgeCall) :
    List (EdgeKey × IncrEdge) :=
  calls.foldl (fun m c => upsertEdgeI m c.src c.tgt c.rel c.evId c.ts) m

theorem applyCallsB_weightAt (calls : List EdgeCall)
    (m : List (EdgeKey × BatchEdge)) (k : EdgeKey) (hk : k.1 ≠ k.2.1) :
    weightAtB (applyCallsB m calls) k =
      stepW^[calls.countP (fun c => decide (callKey c = k))] (weightAtB m k) := by
  induction calls generalizing m with
  | nil => rfl
  | cons c cs ih =>
    have step : applyCallsB m (c :: cs)
        = applyCallsB (upsertEdgeB m c.src c.tgt c.rel c.ts) cs := rfl
    rw [step, ih]
    by_cases hc : callKey c = k
    · have hsrc : c.src ≠ c.tgt := by
        have h1 : c.src = k.1 := by rw [← hc]; rfl
        have h2 : c.tgt = k.2.1 := by rw [← hc]; rfl
        rw [h1, h2]; exact hk
      have hcnt : (c :: cs).countP (fun c => decide (callKey c = k))
          = cs.countP (fun c => decide (callKey c = k)) + 1 := by
        simp [List.countP_cons, hc]
      rw [hcnt, Function.iterate_succ_apply,
        upsertEdgeB_weightAt]
      have : ((c.src, c.tgt, c.rel) : EdgeKey) = k := hc
      simp [this, hsrc]
    · have hcnt : (c :: cs).countP (fun c => decide (callKey c = k))
          = cs.countP (fun c => decide (callKey c = k)) := by
        simp [List.countP_cons, hc]
      rw [hcnt, upsertEdgeB_weightAt]
      have : ¬(((c.src, c.tgt, c.rel) : EdgeKey) = k ∧ c.src ≠ c.tgt) := by
        intro h
        exact hc h.1
      simp [this]

theorem applyCallsI_weightAt (calls : List EdgeCall)
    (m : List (EdgeKey × IncrEdge)) (k : EdgeKey) (hk : k.1 ≠ k.2.1) :
    weightAtI (applyCallsI m calls) k =
      stepW^[calls.countP (fun c => decide (callKey c = k))] (weightAtI m k) := by
  induction calls generalizing m with
  | nil => rfl
  | cons c cs ih =>
    have step : applyCallsI m (c :: cs)
        = applyCallsI (upsertEdgeI m c.src c.tgt c.rel c.evId c.ts) cs := rfl
    rw [step, ih]
    by_cases hc : callKey c = k
    · have hsrc : c.src ≠ c.tgt := by
        have h1 : c.src = k.1 := by rw [← hc]; rfl
        have h2 : c.tgt = k.2.1 := by rw [← hc]; rfl
        rw [h1, h2]; exact hk
      have hcnt : (c :: cs).countP (fun c => decide (callKey c = k))
          = cs.countP (fun c => decide (callKey c = k)) + 1 := by
        simp [List.countP_cons, hc]
      rw [hcnt, Function.iterate_succ_apply,
        upsertEdgeI_weightAt]
      have : ((c.src, c.tgt, c.rel) : EdgeKey) = k := hc
      simp [this, hsrc]
    · have hcnt : (c :: cs).countP (fun c => decide (callKey c = k))
          = cs.countP (fun c => decide (callKey c = k)) := by
        simp [List.countP_cons, hc]
      rw [hcnt, upsertEdgeI_weightAt]
      have : ¬(((c.src, c.tgt, c.rel) : EdgeKey) = k ∧ c.src ≠ c.tgt) := by
        intro h
        exact hc h.1
      simp [this]

theorem stepW_iterate (n : ℕ) : stepW^[n + 1] none = some (1 + (n : ℚ) / 2) := by
  induction n with
  | zero => simp [stepW]
  | succ n ih =>
    rw [Function.iterate_succ_apply', ih]
    simp only [stepW]
    push_cast
    ring_nf

/-- Keys whose source and target nodes differ never enter the map. -/
theorem applyCallsB_selfloop (calls : List EdgeCall)
    (m : List (EdgeKey × BatchEdge)) (k : EdgeKey) (hk : k.1 = k.2.1)
    (hm : weightAtB m k = none) :
    weightAtB (applyCallsB m calls) k = none := by
  induction calls generalizing m with
  | nil => exact hm
  | cons c cs ih =>
    have step : applyCallsB m (c :: cs)
        = applyCallsB (upsertEdgeB m c.src c.tgt c.rel c.ts) cs := rfl
    rw [step]
    apply ih
    rw [upsertEdgeB_weightAt]
    by_cases hc : ((c.src, c.tgt, c.rel) : EdgeKey) = k
    · have : c.src = c.tgt := by
        have h1 : c.src = k.1 := by rw [← hc]
        have h2 : c.tgt = k.2.1 := by rw [← hc]
        rw [h1, h2, hk]
      simp [this, hm]
    · simp [hc, hm]

theorem applyCallsI_selfloop (calls : List EdgeCall)
    (m : List (EdgeKey × IncrEdge)) (k : EdgeKey) (hk : k.1 = k.2.1)
    (hm : weightAtI m k = none) :
    weightAtI (applyCallsI m calls) k = none := by
  induction calls generalizing m with
  | nil => exact hm
  | cons c cs ih =>
    have step : applyCallsI m (c :: cs)
        = applyCallsI (upsertEdgeI m c.src c.tgt c.rel c.evId c.ts) cs := rfl
    rw [step]
    apply ih
    rw [upsertEdgeI_weightAt]
    by_cases hc : ((c.src, c.tgt, c.rel) : EdgeKey) = k
    · have : c.src = c.tgt := by
        have h1 : c.src = k.1 := by rw [← hc]
        have h2 : c.tgt = k.2.1 := by rw [← hc]
        rw [h1, h2, hk]
      simp [this, hm]
    · simp [hc, hm]

-- =========================================================================
-- Repeated upserts of one key (claim C9)
-- =========================================================================

/-- k successive batch upserts of the same edge key into an edge-free map. -/
def iterUpsertEdgeB (src tgt : NodeKey) (rel : Relation) (ts : String) :
    ℕ → List (EdgeKey × BatchEdge)
  | 0 => []
  | n + 1 => upsertEdgeB (iterUpsertEdgeB src tgt rel ts n) src tgt rel ts

/-- k successive incremental upserts of the same edge key into an edge-free
map. -/
def iterUpsertEdgeI (src tgt : NodeKey) (rel : Relation) (evId ts : String) :
    ℕ → List (EdgeKey × IncrEdge)
  | 0 => []
  | n + 1 => upsertEdgeI (iterUpsertEdgeI src tgt rel evId ts n) src tgt rel evId ts

theorem iterUpsertEdgeB_weight (src tgt : NodeKey) (rel : Relation)
    (ts : String) (hne : src ≠ tgt) (n : ℕ) :
    weightAtB (iterUpsertEdgeB src tgt rel ts (n + 1)) (src, tgt, rel)
      = some (1 + (n : ℚ) / 2) := by
  induction n with
  | zero =>
    show weightAtB (upsertEdgeB [] src tgt rel ts) (src, tgt, rel) = _
    rw [upsertEdgeB_weightAt]
    simp [hne, weightAtB, alLookup, stepW]
  | succ n ih =>
    show weightAtB
      (upsertEdgeB (iterUpsertEdgeB src tgt rel ts (n + 1)) src tgt rel ts)
      (src, tgt, rel) = _
    rw [upsertEdgeB_weightAt]
    simp only [hne, ih, stepW]
    norm_num
    push_cast
    ring_nf
    simp [hne]

theorem iterUpsertEdgeI_weight (src tgt : NodeKey) (rel : Relation)
    (evId ts : String) (hne : src ≠ tgt) (n : ℕ) :
    weightAtI (iterUpsertEdgeI src tgt rel evId ts (n + 1)) (src, tgt, rel)
      = some (1 + (n : ℚ) / 2) := by
  induction n with
  | zero =>
    show weightAtI (upsertEdgeI [] src tgt rel evId ts) (src, tgt, rel) = _
    rw [upsertEdgeI_weightAt]
    simp [hne, weightAtI, alLookup, stepW]
  | succ n ih =>
    show weightAtI
      (upsertEdgeI (iterUpsertEdgeI src tgt rel evId ts (n + 1)) src tgt rel evId ts)
      (src, tgt, rel) = _
    rw [upsertEdgeI_weightAt]
    simp only [hne, ih, stepW]
    norm_num
    push_cast
    ring_nf
    simp [hne]

/-- Claim C9: k upserts (k at least 1) of one (source, target, relation) key
into an initially edge-free graph leave the edge at weight 1.0 plus 0.5 per
reinforcement after the first observation, in both the batch builder's
upsertEdge and the incremental builder's in-memory upsertEdge. -/
theorem c9_edge_weight_reinforcement (src tgt : NodeKey) (rel : Relation)
    (evId ts : String) (k : ℕ) (hne : src ≠ tgt) (hk : 1 ≤ k) :
    weightAtB (iterUpsertEdgeB src tgt rel ts k) (src, tgt, rel)
        = some (1 + ((k : ℚ) - 1) / 2)
    ∧ weightAtI (iterUpsertEdgeI src tgt rel evId ts k) (src, tgt, rel)
        = some (1 + ((k : ℚ) - 1) / 2) := by
  obtain ⟨n, rfl⟩ : ∃ n, k = n + 1 := ⟨k - 1, (Nat.succ_pred_eq_of_pos hk).symm⟩
  constructor
  · rw [iterUpsertEdgeB_weight src tgt rel ts hne n]
    push_cast
    ring_nf
  · rw [iterUpsertEdgeI_weight src tgt rel evId ts hne n]
    push_cast
    ring_nf

/-- Witness for c9_edge_weight_reinforcement at three upserts of a concrete
key: the resulting weight is 2.0 in both builders. -/
theorem c9_edge_weight_reinforcement_witness :
    (("headache", "symptom") : NodeKey) ≠ ("nausea", "symptom")
    ∧ weightAtB
        (iterUpsertEdgeB ("headache", "symptom") ("nausea", "symptom")
          .co_occurrence "t1" 3)
        (("headache", "symptom"), ("nausea", "symptom"), .co_occurrence)
        = some (1 + ((3 : ℚ) - 1) / 2)
    ∧ weightAtI
        (iterUpsertEdgeI ("headache", "symptom") ("nausea", "symptom")
          .co_occurrence "e1" "t1" 3)
        (("headache", "symptom"), ("nausea", "symptom"), .co_occurrence)
        = some (1 + ((3 : ℚ) - 1) / 2) := by
  have h := c9_edge_weight_reinforcement ("headache", "symptom")
    ("nausea", "symptom") .co_occurrence "e1" "t1" 3 (by decide) (by norm_num)
  exact ⟨by decide, h.1, h.2⟩

-- =========================================================================
-- Batch / incremental equivalence machinery (claim C1)
-- =========================================================================

/-- Edge upserts performed by one processEventForGraph call. -/
def eventCalls (e : Event) (hist : List Event) : List EdgeCall :=
  if (extractConcepts e).isEmpty then []
  else incrCallsOf e (extractConcepts e) ((recentOk e hist).flatMap extractConcepts)

/-- Edge upserts performed by a whole incremental run, in order. -/
def incrAllCalls : List Event → List Event → List EdgeCall
  | _, [] => []
  | hist, e :: rest => eventCalls e hist ++ incrAllCalls (hist ++ [e]) rest

theorem applyCallsI_append (m : List (EdgeKey × IncrEdge)) (a b : List EdgeCall) :
    applyCallsI m (a ++ b) = applyCallsI (applyCallsI m a) b := by
  simp [applyCallsI, List.foldl_append]

theorem applyCallsB_append (m : List (EdgeKey × BatchEdge)) (a b : List EdgeCall) :
    applyCallsB m (a ++ b) = applyCallsB (applyCallsB m a) b := by
  simp [applyCallsB, List.foldl_append]

theorem processEventForGraph_edges (s : GraphStore) (e : Event)
    (hist : List Event) :
    (processEventForGraph s e hist).edges = applyCallsI s.edges (eventCalls e hist) := by
  unfold processEventForGraph eventCalls
  by_cases h : (extractConcepts e).isEmpty
  · simp [h, applyCallsI]
  · simp [h, applyCallsI]

theorem runIncrementalFrom_edges (l : List Event) (s : GraphStore)
    (hist : List Event) :
    (runIncrementalFrom s hist l).edges = applyCallsI s.edges (incrAllCalls hist l) := by
  induction l generalizing s hist with
  | nil => rfl
  | cons e rest ih =>
    rw [runIncrementalFrom, incrAllCalls, ih, processEventForGraph_edges,
      applyCallsI_append]

theorem batchNodePhase_aux (events : List Event)
    (nm : List (NodeKey × BatchNode)) (ec : List (Event × List ExtractedConcept)) :
    (events.foldl (fun acc e =>
        ((extractConcepts e).foldl upsertNodeB acc.1,
         acc.2 ++ [(e, extractConcepts e)])) (nm, ec)).2
      = ec ++ events.map (fun e => (e, extractConcepts e)) := by
  induction events generalizing nm ec with
  | nil => simp
  | cons e rest ih => simp [ih]

theorem batchNodePhase_snd (events : List Event) :
    (batchNodePhase events).2 = events.map (fun e => (e, extractConcepts e)) := by
  have h := batchNodePhase_aux events [] []
  simpa [batchNodePhase] using h

/-- Every symptom concept carries the event's own timestamp. -/
theorem extractSymptomConcept_timestamp (e : Event) :
    ∀ c ∈ extractSymptomConcept e, c.timestamp = e.ts := by
  intro c hc
  unfold extractSymptomConcept at hc
  dsimp only at hc
  split at hc
  · rw [List.mem_singleton] at hc
    subst hc
    rfl
  · rw [List.mem_filterMap] at hc
    obtain ⟨a, -, ha⟩ := hc
    split at ha
    · injection ha with h
      rw [← h]
    · cases ha

/-- Every medication concept carries the event's own timestamp. -/
theorem extractMedicationConcept_timestamp (e : Event) :
    ∀ c ∈ extractMedicationConcept e, c.timestamp = e.ts := by
  intro c hc
  unfold extractMedicationConcept at hc
  rw [List.mem_singleton] at hc
  subst hc
  rfl

/-- Every lifestyle concept carries the event's own timestamp. -/
theorem extractLifestyleConcept_timestamp (e : Event) :
    ∀ c ∈ extractLifestyleConcept e, c.timestamp = e.ts := by
  intro c hc
  unfold extractLifestyleConcept at hc
  dsimp only at hc
  split at hc
  · rw [List.mem_singleton] at hc
    subst hc
    rfl
  · rw [List.mem_filterMap] at hc
    obtain ⟨a, -, ha⟩ := hc
    split at ha
    · injection ha with h
      rw [← h]
    · cases ha

/-- Every clinical concept carries the event's own timestamp. -/
theorem extractClinicalConcept_timestamp (e : Event) :
    ∀ c ∈ extractClinicalConcept e, c.timestamp = e.ts := by
  intro c hc
  unfold extractClinicalConcept at hc
  rw [List.mem_append] at hc
  rcases hc with hc | hc
  · split at hc
    · split at hc
      · rw [List.mem_singleton] at hc
        subst hc
        rfl
      · cases hc
    · cases hc
  · rw [List.mem_singleton] at hc
    subst hc
    rfl

/-- Every concept an event yields carries the event's own timestamp. -/
theorem extractConcepts_timestamp (e : Event) :
    ∀ c ∈ extractConcepts e, c.timestamp = e.ts := by
  intro c hc
  unfold extractConcepts at hc
  cases he : e.eventType <;> rw [he] at hc <;> dsimp only at hc
  case symptom => exact extractSymptomConcept_timestamp e c hc
  case medication => exact extractMedicationConcept_timestamp e c hc
  case lifestyle => exact extractLifestyleConcept_timestamp e c hc
  case clinical => exact extractClinicalConcept_timestamp e c hc
  case insight => cases hc

/-- The two relation computations agree. -/
theorem relationForI_eq (a b : String) : relationForI a b = relationFor a b := by
  unfold relationForI relationFor
  by_cases h1 : (a = "medication" ∧ b = "symptom") ∨ (a = "symptom" ∧ b = "medication")
  · by_cases h2 : (a = "lifestyle" ∧ b = "symptom") ∨ (a = "symptom" ∧ b = "lifestyle")
    · exfalso
      rcases h1 with ⟨ha, hb⟩ | ⟨ha, hb⟩ <;> rcases h2 with ⟨ha', hb'⟩ | ⟨ha', hb'⟩ <;>
        simp_all
    · simp [h1, h2]
  · simp [h1]

/-- The relation computation is symmetric in its two categories. -/
theorem relationFor_comm (a b : String) : relationFor a b = relationFor b a := by
  unfold relationFor
  by_cases h1 : (a = "medication" ∧ b = "symptom") ∨ (a = "symptom" ∧ b = "medication")
  · have h1' : (b = "medication" ∧ a = "symptom") ∨ (b = "symptom" ∧ a = "medication") := by
      tauto
    simp [h1, h1']
  · have h1' : ¬((b = "medication" ∧ a = "symptom") ∨ (b = "symptom" ∧ a = "medication")) := by
      tauto
    by_cases h2 : (a = "lifestyle" ∧ b = "symptom") ∨ (a = "symptom" ∧ b = "lifestyle")
    · have h2' : (b = "lifestyle" ∧ a = "symptom") ∨ (b = "symptom" ∧ a = "lifestyle") := by
        tauto
      simp [h1, h1', h2, h2']
    · have h2' : ¬((b = "lifestyle" ∧ a = "symptom") ∨ (b = "symptom" ∧ a = "lifestyle")) := by
        tauto
      simp [h1, h1', h2, h2']

theorem flatMap_nil_fun {α γ : Type} (l : List α) :
    (l.flatMap fun _ => ([] : List γ)) = [] := by
  induction l with
  | nil => rfl
  | cons a t ih => simp [ih]

theorem flatMap_comm_perm {α β γ : Type} (as : List α) (bs : List β)
    (f : α → β → List γ) :
    List.Perm (as.flatMap fun a => bs.flatMap fun b => f a b)
      (bs.flatMap fun b => as.flatMap fun a => f a b) := by
  induction as with
  | nil =>
    simp [flatMap_nil_fun]
  | cons a t ih =>
    have step : (bs.flatMap fun b => (a :: t).flatMap fun a' => f a' b)
        = bs.flatMap fun b => f a b ++ t.flatMap fun a' => f a' b := by
      apply List.flatMap_congr
      intro b _
      simp
    rw [step, List.flatMap_cons]
    refine List.Perm.trans (List.Perm.append_left _ ih) ?_
    exact List.flatMap_append_perm bs (fun b => f a b) _

theorem filterMap_eq_flatMap_toList {α γ : Type} (l : List α) (g : α → Option γ) :
    l.filterMap g = l.flatMap (fun a => (g a).toList) := by
  induction l with
  | nil => rfl
  | cons a t ih => cases hg : g a <;> simp [hg, ih]

theorem flatMap_filterMap_comm {α β γ : Type} (as : List α) (bs : List β)
    (f : α → β → Option γ) :
    List.Perm (as.flatMap fun a => bs.filterMap (f a))
      (bs.flatMap fun b => as.filterMap fun a => f a b) := by
  have h1 : (as.flatMap fun a => bs.filterMap (f a))
      = as.flatMap fun a => bs.flatMap fun b => (f a b).toList := by
    apply List.flatMap_congr
    intro a _
    exact filterMap_eq_flatMap_toList bs (f a)
  have h2 : (bs.flatMap fun b => as.filterMap fun a => f a b)
      = bs.flatMap fun b => as.flatMap fun a => (f a b).toList := by
    apply List.flatMap_congr
    intro b _
    exact filterMap_eq_flatMap_toList as (fun a => f a b)
  rw [h1, h2]
  exact flatMap_comm_perm as bs _

theorem filter_flatMap_if {α β : Type} (l : List α) (p : α → Bool)
    (f : α → List β) :
    (l.filter p).flatMap f = l.flatMap (fun x => if p x then f x else []) := by
  induction l with
  | nil => rfl
  | cons a t ih =>
    by_cases h : p a = true <;> simp [List.filter_cons, h, ih]

/-- Pair an event with its extracted concepts, as the batch pre-extraction
loop does. -/
def wc (e : Event) : Event × List ExtractedConcept := (e, extractConcepts e)

theorem eventCalls_eq (e : Event) (hist : List Event) :
    eventCalls e hist
      = incrCallsOf e (extractConcepts e) ((recentOk e hist).flatMap extractConcepts) := by
  unfold eventCalls
  by_cases h : (extractConcepts e).isEmpty
  · rw [if_pos h, List.isEmpty_iff.mp h]
    simp [incrCallsOf]
  · rw [if_neg h]

theorem batchPairsCalls_snoc (l : List (Event × List ExtractedConcept))
    (x : Event × List ExtractedConcept) :
    List.Perm (batchPairsCalls (l ++ [x]))
      (batchPairsCalls l ++ l.flatMap (fun y => crossCallsB y x)) := by
  induction l with
  | nil => simp [batchPairsCalls]
  | cons a t ih =>
    show List.Perm ((t ++ [x]).flatMap (crossCallsB a) ++ batchPairsCalls (t ++ [x])) _
    rw [List.flatMap_append]
    simp only [List.flatMap_cons, List.flatMap_nil, List.append_nil]
    refine List.Perm.trans (List.Perm.append_left _ ih) ?_
    show List.Perm
      (t.flatMap (crossCallsB a) ++ crossCallsB a x
        ++ (batchPairsCalls t ++ t.flatMap (fun y => crossCallsB y x)))
      ((t.flatMap (crossCallsB a) ++ batchPairsCalls t)
        ++ (crossCallsB a x ++ t.flatMap (fun y => crossCallsB y x)))
    rw [List.append_assoc, List.append_assoc]
    exact List.Perm.append_left _ (List.perm_append_comm_assoc _ _ _)

theorem incrAllCalls_snoc (rest : List Event) (hist : List Event) (e : Event) :
    incrAllCalls hist (rest ++ [e])
      = incrAllCalls hist rest ++ eventCalls e (hist ++ rest) := by
  induction rest generalizing hist with
  | nil => simp [incrAllCalls]
  | cons a t ih =>
    show eventCalls a hist ++ incrAllCalls (hist ++ [a]) (t ++ [e]) = _
    rw [ih]
    simp [incrAllCalls]

/-- The option of edge key a cross-event concept pair contributes: none for
equal node keys, otherwise the key directed from the earlier timestamp. -/
def pairKey (tsc tso : TS) (c o : ExtractedConcept) : Option EdgeKey :=
  if conceptKey c = conceptKey o then none
  else
    some (if jsLe tsc.parsedMs tso.parsedMs then
            (conceptKey c, conceptKey o, relationFor c.category o.category)
          else
            (conceptKey o, conceptKey c, relationFor c.category o.category))

/-- Keys produced by the batch cross loop for event e against each earlier
event r of l, expressed without the outer-loop commutation. -/
theorem perEvent_keys_eq (l : List Event) (e : Event)
    (hwfl : ∀ x ∈ l, (x.ts.parsedMs).isSome = true)
    (hwfe : (e.ts.parsedMs).isSome = true)
    (hid : e.id ∉ l.map Event.id) :
    (((l.map wc).flatMap fun y => crossCallsB y (wc e)).map callKey)
      = (((recentOk e l).flatMap extractConcepts).flatMap fun rc =>
            (extractConcepts e).filterMap fun n => pairKey rc.timestamp n.timestamp rc n) := by
  rw [List.flatMap_assoc, recentOk, filter_flatMap_if, List.flatMap_map,
    List.map_flatMap]
  apply List.flatMap_congr
  intro r hr
  obtain ⟨tr, htr⟩ := Option.isSome_iff_exists.mp (hwfl r hr)
  obtain ⟨te, hte⟩ := Option.isSome_iff_exists.mp hwfe
  have hrid : r.id ≠ e.id := by
    intro h
    exact hid (h ▸ List.mem_map_of_mem Event.id hr)
  have hcond : (decide (r.id ≠ e.id)
      && jsAbsLe e.ts.parsedMs r.ts.parsedMs coWindowMs)
      = !(jsAbsGt r.ts.parsedMs e.ts.parsedMs coWindowMs) := by
    rw [htr, hte]
    simp only [jsAbsLe, jsAbsGt]
    simp [hrid, abs_sub_comm, ← decide_not, not_lt]
  by_cases hwin : jsAbsGt r.ts.parsedMs e.ts.parsedMs coWindowMs = true
  · rw [hcond, hwin]
    unfold crossCallsB wc
    dsimp only
    rw [if_pos hwin]
    simp
  · have hwin' : jsAbsGt r.ts.parsedMs e.ts.parsedMs coWindowMs = false := by
      simpa using hwin
    rw [hcond, hwin']
    simp only [Bool.not_false, if_pos]
    unfold crossCallsB wc
    dsimp only
    rw [if_neg (by rw [hwin']; exact Bool.false_ne_true)]
    rw [List.map_flatMap]
    apply List.flatMap_congr
    intro c hcmem
    rw [List.map_filterMap]
    apply List.filterMap_congr
    intro o homem
    have hcts : c.timestamp = r.ts := extractConcepts_timestamp r c hcmem
    have hots : o.timestamp = e.ts := extractConcepts_timestamp e o homem
    unfold pairKey
    by_cases hck : conceptKey c = conceptKey o
    · rw [if_pos hck, if_pos hck]
      rfl
    · rw [if_neg hck, if_neg hck]
      rw [hcts, hots]
      by_cases hle : jsLe r.ts.parsedMs e.ts.parsedMs = true
      · rw [if_pos hle, if_pos hle]
        rfl
      · rw [if_neg hle, if_neg hle]
        rfl

/-- Keys produced by one incremental step for event e against history l. -/
theorem eventCalls_keys_perm (l : List Event) (e : Event) :
    List.Perm ((eventCalls e l).map callKey)
      (((recentOk e l).flatMap extractConcepts).flatMap fun rc =>
          (extractConcepts e).filterMap fun n =>
            pairKey rc.timestamp n.timestamp rc n) := by
  rw [eventCalls_eq]
  unfold incrCallsOf
  have hcomm := flatMap_filterMap_comm (extractConcepts e)
    ((recentOk e l).flatMap extractConcepts)
    (fun newC recC =>
      if conceptKey newC = conceptKey recC then none
      else
        some (if jsLe recC.timestamp.parsedMs newC.timestamp.parsedMs then
                (⟨conceptKey recC, conceptKey newC,
                  relationForI newC.category recC.category, e.id,
                  e.ts.absolute⟩ : EdgeCall)
              else
                ⟨conceptKey newC, conceptKey recC,
                  relationForI newC.category recC.category, e.id,
                  e.ts.absolute⟩))
  refine List.Perm.trans (List.Perm.map callKey hcomm) ?_
  rw [List.map_flatMap]
  apply List.Perm.of_eq
  apply List.flatMap_congr
  intro rc _
  rw [List.map_filterMap]
  apply List.filterMap_congr
  intro n _
  unfold pairKey
  by_cases hck : conceptKey n = conceptKey rc
  · simp [hck]
  · have hck' : ¬conceptKey rc = conceptKey n := fun h => hck h.symm
    rw [if_neg hck, if_neg hck']
    by_cases hle : jsLe rc.timestamp.parsedMs n.timestamp.parsedMs = true
    · rw [if_pos hle, if_pos hle]
      simp [callKey, relationForI_eq, relationFor_comm n.category rc.category]
    · rw [if_neg hle, if_neg hle]
      simp [callKey, relationForI_eq, relationFor_comm n.category rc.category]

/-- The multiset of edge-upsert keys of the batch run equals that of the
incremental run (well-formed timestamps, pairwise distinct event ids). -/
theorem callKeys_perm (events : List Event)
    (hwf : ∀ x ∈ events, (x.ts.parsedMs).isSome = true)
    (hid : (events.map Event.id).Nodup) :
    List.Perm ((batchPairsCalls (events.map wc)).map callKey)
      ((incrAllCalls [] events).map callKey) := by
  induction events using List.reverseRecOn with
  | nil => simp [batchPairsCalls, incrAllCalls]
  | append_singleton l e ih =>
    have hwfl : ∀ x ∈ l, (x.ts.parsedMs).isSome = true := fun x hx =>
      hwf x (List.mem_append.mpr (Or.inl hx))
    have hwfe : (e.ts.parsedMs).isSome = true :=
      hwf e (List.mem_append.mpr (Or.inr (List.mem_singleton_self e)))
    have hidl : (l.map Event.id).Nodup := by
      rw [List.map_append] at hid
      exact (List.nodup_append.mp hid).1
    have hide : e.id ∉ l.map Event.id := by
      rw [List.map_append] at hid
      intro hmem
      exact ((List.nodup_append.mp hid).2.2) hmem (by simp)
    rw [List.map_append]
    refine List.Perm.trans
      (List.Perm.map callKey (batchPairsCalls_snoc (l.map wc) (wc e))) ?_
    rw [incrAllCalls_snoc, List.nil_append]
    rw [List.map_append, List.map_append]
    refine List.Perm.append (ih hwfl hidl) ?_
    rw [perEvent_keys_eq l e hwfl hwfe hide]
    exact List.Perm.symm (eventCalls_keys_perm l e)

/-- Claim C1 as amended: over any event sequence whose timestamps are all
well-formed and whose ids are pairwise distinct, processing the events one at
a time through processEventForGraph (each call given the full preceding
history as recent events) yields exactly the same weight for every (source,
target, relation) edge key as one batch buildGraphFromEvents call; the node
occurrenceCounts, by contrast, are NOT preserved (see the counterexample). -/
theorem c1_incremental_batch_edge_weights (events : List Event)
    (hwf : ∀ x ∈ events, (x.ts.parsedMs).isSome = true)
    (hid : (events.map Event.id).Nodup) (k : EdgeKey) :
    weightAtI (runIncremental events).edges k
      = weightAtB (buildGraphMaps events).2 k := by
  have hincr : (runIncremental events).edges
      = applyCallsI [] (incrAllCalls [] events) :=
    runIncrementalFrom_edges events ⟨[], []⟩ []
  have hbatch : (buildGraphMaps events).2
      = applyCallsB [] (batchPairsCalls (events.map wc)) := by
    unfold buildGraphMaps applyCallsB
    dsimp only
    rw [batchNodePhase_snd]
    rfl
  by_cases hk : k.1 = k.2.1
  · rw [hincr, hbatch,
      applyCallsI_selfloop (incrAllCalls [] events) [] k hk rfl,
      applyCallsB_selfloop (batchPairsCalls (events.map wc)) [] k hk rfl]
  · rw [hincr, hbatch, applyCallsI_weightAt _ _ _ hk,
      applyCallsB_weightAt _ _ _ hk]
    have hcnt : (batchPairsCalls (events.map wc)).countP
          (fun c => decide (callKey c = k))
        = (incrAllCalls [] events).countP (fun c => decide (callKey c = k)) := by
      have h1 := List.Perm.countP_eq (fun x => decide (x = k))
        (callKeys_perm events hwf hid)
      simpa [List.countP_map, Function.comp] using h1
    rw [hcnt]
    rfl

/-- First event of the two-event C1 counterexample. -/
def c1ExA : Event := medEvent "a" "2024-01-01T00:00:00Z" (some 0) "aspirin" "taken"

/-- Second event of the two-event C1 counterexample, one hour later. -/
def c1ExB : Event :=
  medEvent "b" "2024-01-01T01:00:00Z" (some 3600000) "ibuprofen" "taken"

/-- Counterexample to claim C1 as stated: these two well-formed,
distinct-id events give the aspirin node occurrenceCount 2 under incremental
processing but 1 under the batch build (the incremental path re-upserts every
in-window historical event's concepts). -/
theorem c1_node_count_counterexample :
    ((alLookup (runIncremental [c1ExA, c1ExB]).nodes
        ("aspirin", "medication")).map IncrNode.occurrenceCount = some 2)
    ∧ ((alLookup (buildGraphMaps [c1ExA, c1ExB]).1
        ("aspirin", "medication")).map BatchNode.occurrenceCount = some 1)
    ∧ (∀ x ∈ [c1ExA, c1ExB], (x.ts.parsedMs).isSome = true)
    ∧ (([c1ExA, c1ExB].map Event.id).Nodup) := by
  refine ⟨?_, ?_, ?_, ?_⟩ <;> decide

/-- Witness for c1_incremental_batch_edge_weights at a concrete two-event
input and a concrete edge key. -/
theorem c1_incremental_batch_edge_weights_witness :
    ((∀ x ∈ [c1ExA, c1ExB], (x.ts.parsedMs).isSome = true)
      ∧ ([c1ExA, c1ExB].map Event.id).Nodup)
    ∧ weightAtI (runIncremental [c1ExA, c1ExB]).edges
        ((("aspirin", "medication"), ("ibuprofen", "medication"),
          Relation.co_occurrence))
      = weightAtB (buildGraphMaps [c1ExA, c1ExB]).2
        ((("aspirin", "medication"), ("ibuprofen", "medication"),
          Relation.co_occurrence)) :=
  ⟨⟨by decide, by decide⟩,
   c1_incremental_batch_edge_weights [c1ExA, c1ExB] (by decide) (by decide) _⟩

-- =========================================================================
-- HSI scorer (src/unnamed/part_009, second module = suffix S, third module
-- with persistence = suffix P)
-- =========================================================================

/-- Data confidence tiers of an HSI snapshot. -/
inductive Confidence
  | low | medium | high
deriving DecidableEq, Repr

/-- HSI snapshot.  Scores are integers because every one is produced by
Math.round.  computedAt keeps the injected clock value in milliseconds (the
source stores its ISO rendering). -/
structure HSIScore where
  score : ℤ
  symptomRegularity : ℤ
  behavioralConsistency : ℤ
  trajectoryDirection : ℤ
  windowDays : ℤ
  dataConfidence : Confidence
  contributingEventIds : List String
  computedAt : ℤ
deriving DecidableEq, Repr

/-- Lowercase and trim a string (description normalization in the scorers and
the alert engine). -/
def lowerTrim (s : String) : String :=
  String.mk (trimChars (s.toList.map Char.toLower))

/-- First ten characters of the ISO timestamp: the YYYY-MM-DD day key
(substring(0, 10)). -/
def dayKey (e : Event) : String := String.mk (e.ts.absolute.toList.take 10)

/-- groupByDay: count events per day key, JS-Map insertion ordered. -/
def groupByDay (events : List Event) : List (String × ℕ) :=
  events.foldl (fun m e =>
    match alLookup m (dayKey e) with
    | some _ => alUpdate m (dayKey e) (· + 1)
    | none => m ++ [(dayKey e, 1)]) []

/-- Insertion-ordered deduplication: the JS Set built by repeated add. -/
def dedup {α : Type} [DecidableEq α] (l : List α) : List α :=
  l.foldl (fun acc x => if x ∈ acc then acc else acc ++ [x]) []

/-- Mean of a list of rationals (sum / length; division by zero never reached
behind the length guards of the callers). -/
def listMean (values : List ℚ) : ℚ := values.sum / values.length

/-- Population variance of a list of rationals. -/
def listVariance (values : List ℚ) : ℚ :=
  (values.map (fun v => (v - listMean values) ^ 2)).sum / values.length

/-- coefficientOfVariation of the stateless scorer: 0 for fewer than two
values or zero mean, else sqrt(variance) / mean. -/
noncomputable def coefficientOfVariationS (values : List ℚ) : ℝ :=
  if values.length < 2 then 0
  else if listMean values = 0 then 0
  else Real.sqrt ((listVariance values : ℚ) : ℝ) / ((listMean values : ℚ) : ℝ)

/-- standardDeviation of the persistence-backed scorer: 0 for fewer than two
values, else sqrt of the population variance. -/
noncomputable def standardDeviation (values : List ℚ) : ℝ :=
  if values.length < 2 then 0
  else Real.sqrt ((listVariance values : ℚ) : ℝ)

/-- coefficientOfVariation of the persistence-backed scorer: 0 for fewer than
two values or zero mean, else sd / |mean|. -/
noncomputable def coefficientOfVariationP (values : List ℚ) : ℝ :=
  if values.length < 2 then 0
  else if listMean values = 0 then 0
  else standardDeviation values / |((listMean values : ℚ) : ℝ)|

/-- Least-squares slope of values against their indices (x = index,
y = value), 0 when fewer than 2 values or a degenerate denominator. -/
def linearRegressionSlope (values : List ℚ) : ℚ :=
  if values.length < 2 then 0
  else
    let n : ℚ := values.length
    let idx := values.enum
    let sumX : ℚ := (idx.map (fun p => (p.1 : ℚ))).sum
    let sumY : ℚ := values.sum
    let sumXY : ℚ := (idx.map (fun p => (p.1 : ℚ) * p.2)).sum
    let sumX2 : ℚ := (idx.map (fun p => (p.1 : ℚ) * (p.1 : ℚ))).sum
    let denom := n * sumX2 - sumX * sumX
    if denom = 0 then 0 else (n * sumXY - sumX * sumY) / denom

/-- Natural number denoted by a digit run. -/
def digitsToNat (ds : List Char) : ℕ :=
  ds.foldl (fun n c => n * 10 + (c.toNat - 48)) 0

/-- Parse a decimal literal \d+(\.\d+)? at the head of the character list,
returning its value and the rest; none when the head is not a digit.  A dot
not followed by a digit is not consumed (the fraction group needs at least
one digit). -/
def parseDecimal (cs : List Char) : Option (ℚ × List Char) :=
  let ds := cs.takeWhile Char.isDigit
  let rest := cs.dropWhile Char.isDigit
  if ds.isEmpty then none
  else
    match rest with
    | '.' :: rest2 =>
        let fs := rest2.takeWhile Char.isDigit
        if fs.isEmpty then some ((digitsToNat ds : ℚ), rest)
        else some ((digitsToNat ds : ℚ) + (digitsToNat fs : ℚ) / (10 ^ fs.length : ℚ),
          rest2.dropWhile Char.isDigit)
    | _ => some ((digitsToNat ds : ℚ), rest)

/-- Leftmost match of /(\d+(?:\.\d+)?)/ in a string: scan for the first digit
and read the number there. -/
def findNumber : List Char → Option (ℚ × List Char)
  | [] => none
  | c :: t =>
    match parseDecimal (c :: t) with
    | some r => some r
    | none => findNumber t

/-- Attempt /(\d+(?:\.\d+)?)\s*\/\s*(\d+)/ at the head of the list. -/
def tryFractionAt (cs : List Char) : Option (ℚ × ℚ) :=
  match parseDecimal cs with
  | none => none
  | some (num, rest) =>
    match rest.dropWhile Char.isWhitespace with
    | '/' :: rest3 =>
      let ds := (rest3.dropWhile Char.isWhitespace).takeWhile Char.isDigit
      if ds.isEmpty then none else some (num, (digitsToNat ds : ℚ))
    | _ => none

/-- Leftmost match of the fraction pattern. -/
def findFraction : List Char → Option (ℚ × ℚ)
  | [] => none
  | c :: t =>
    match tryFractionAt (c :: t) with
    | some r => some r
    | none => findFraction t

/-- Keyword table of the stateless parseIntensity, in declaration order. -/
def intensityKeywordsS : List (String × ℚ) :=
  [("mild", 3), ("slight", 2), ("moderate", 5), ("severe", 8), ("extreme", 10),
   ("low", 2), ("medium", 5), ("high", 8), ("very", 7), ("terrible", 9),
   ("awful", 9)]

/-- parseIntensity of the stateless scorer: an x/y fraction anywhere is
normalized to a 0-10 scale, else a leading number, else the first contained
keyword.  This finite model maps a zero denominator to 0, so it is exact
only on inputs whose fractions have nonzero denominators; in JS the zero
denominator gives Infinity, modelled faithfully by parseIntensityJ below. -/
def parseIntensityS (intensity : Option String) : Option ℚ :=
  match intensity with
  | none => none
  | some s =>
    if s = "" then none
    else
      match findFraction s.toList with
      | some (a, b) => some (a / b * 10)
      | none =>
        match parseDecimal s.toList with
        | some (v, _) => some v
        | none =>
          (intensityKeywordsS.find?
            (fun p => strIncludes (lowerTrim s) p.1)).map Prod.snd

/-- Keyword table of the persistence-backed parseIntensity (exact match). -/
def intensityKeywordsP : List (String × ℚ) :=
  [("none", 0), ("minimal", 1), ("very mild", 1.5), ("mild", 2),
   ("slight", 2.5), ("moderate", 5), ("medium", 5), ("significant", 6),
   ("strong", 7), ("severe", 8), ("very severe", 9), ("extreme", 9.5),
   ("unbearable", 10), ("worst", 10)]

/-- parseIntensity of the persistence-backed scorer: the first number
anywhere, normalized (at most 10 kept, at most 100 divided by 10, else null),
else an exact keyword lookup of the lowercased, trimmed string. -/
def parseIntensityP (intensity : Option String) : Option ℚ :=
  match intensity with
  | none => none
  | some s =>
    if s = "" then none
    else
      match findNumber s.toList with
      | some (v, _) =>
        if v ≤ 10 then some v
        else if v ≤ 100 then some (v / 10)
        else none
      | none =>
        (intensityKeywordsP.find? (fun p => p.1 = lowerTrim s)).map Prod.snd

/-- Daily count values fed to the CV by the persistence-backed
computeSymptomRegularity: per-day counts of the days present, padded with one
zero per remaining day of max(windowDays, 1). -/
def countValuesP (symptomEvents : List Event) (windowDays : ℤ) : List ℚ :=
  (groupByDay symptomEvents).map (fun p => (p.2 : ℚ))
    ++ List.replicate
        (max windowDays 1
          - ((groupByDay symptomEvents).map (fun p => (p.2 : ℚ))).length).toNat 0

/-- Modelled from the spec sentence of C3: the per-day symptom counts over
all windowDays days of the window, zero-count days included as zero values. -/
def specWindowCounts (symptomEvents : List Event) (windowDays : ℤ) : List ℚ :=
  (groupByDay symptomEvents).map (fun p => (p.2 : ℚ))
    ++ List.replicate (windowDays.toNat - (groupByDay symptomEvents).length) 0

/-- Count values the stateless computeSymptomRegularity feeds to the CV:
per-day counts of the observed days only. -/
def sCountValues (symptoms : List Event) : List ℚ :=
  (groupByDay symptoms).map (fun p => (p.2 : ℚ))

/-- Clamped CV score of the stateless scorer's daily counts. -/
noncomputable def cvScoreS (symptoms : List Event) : ℝ :=
  max 10 (min 95 (90 - coefficientOfVariationS (sCountValues symptoms) * 50))

/-- Clamped intensity-CV score of the stateless scorer (neutral 70 below 3
parsed intensities). -/
noncomputable def intensityScoreS (symptoms : List Event) : ℝ :=
  if 3 ≤ (symptoms.filterMap (fun s => parseIntensityS s.intensity)).length then
    max 10 (min 95
      (85 - coefficientOfVariationS
        (symptoms.filterMap (fun s => parseIntensityS s.intensity)) * 40))
  else 70

/-- Diversity penalty of the stateless scorer: 3 points per distinct
description beyond 5, floored at 0. -/
def diversityPenaltyS (symptoms : List Event) : ℤ :=
  max 0 ((((dedup (symptoms.map (fun s => lowerTrim s.description))).length : ℤ) - 5) * 3)

/-- computeSymptomRegularity of the stateless scorer (part_009 lines
314-338): fixed 60 below 3 events; else a clamped CV score of the per-day
counts of OBSERVED days, blended half and half with a clamped intensity CV
score, minus the diversity penalty, floored at 5 and rounded. -/
noncomputable def computeSymptomRegularityS (symptoms : List Event)
    (windowDays : ℤ) : ℤ :=
  if symptoms.length < 3 then 60
  else
    jsRoundR (max 5 ((cvScoreS symptoms * 0.5 + intensityScoreS symptoms * 0.5)
      - ((diversityPenaltyS symptoms : ℤ) : ℝ)))

/-- Modelled from the spec sentence of C3, for the counterexample: the
clamped CV score of the stateless scorer as it would read over all
windowDays days with zero-count days included. -/
noncomputable def cvScoreSSpec (symptoms : List Event) (windowDays : ℤ) : ℝ :=
  max 10 (min 95
    (90 - coefficientOfVariationS (specWindowCounts symptoms windowDays) * 50))

/-- Modelled from the spec sentence of C3, for the counterexample: the
stateless computeSymptomRegularity as it would read if its count CV ranged
over all windowDays days with zero-count days included. -/
noncomputable def computeSymptomRegularitySSpec (symptoms : List Event)
    (windowDays : ℤ) : ℤ :=
  if symptoms.length < 3 then 60
  else
    jsRoundR (max 5 ((cvScoreSSpec symptoms windowDays * 0.5
        + intensityScoreS symptoms * 0.5)
      - ((diversityPenaltyS symptoms : ℤ) : ℝ)))

/-- Clamped CV score of the persistence-backed scorer over countValuesP
(zero-count days included). -/
noncomputable def cvScoreP (symptomEvents : List Event) (windowDays : ℤ) : ℝ :=
  max 20 (min 100
    (100 - coefficientOfVariationP (countValuesP symptomEvents windowDays) * 40))

/-- Clamped intensity-CV score of the persistence-backed scorer (neutral 70
below 3 parsed intensities). -/
noncomputable def intensityScoreP (symptomEvents : List Event) : ℝ :=
  if 3 ≤ (symptomEvents.filterMap (fun e => parseIntensityP e.intensity)).length then
    max 20 (min 100
      (100 - coefficientOfVariationP
        (symptomEvents.filterMap (fun e => parseIntensityP e.intensity)) * 50))
  else 70

/-- Diversity penalty of the persistence-backed scorer: 5 points per
distinct description, capped at 30. -/
def diversityPenaltyP (symptomEvents : List Event) : ℤ :=
  min 30 (((dedup (symptomEvents.map (fun e => lowerTrim e.description))).length : ℤ) * 5)

/-- computeSymptomRegularity of the persistence-backed scorer (part_009
lines 564-601): 80 for an empty list, else CV score (zero days included),
intensity score and capped diversity penalty combined 0.5 / 0.3 / 0.2 and
clamped to [0, 100]. -/
noncomputable def computeSymptomRegularityP (symptomEvents : List Event)
    (windowDays : ℤ) : ℤ :=
  if symptomEvents.length = 0 then 80
  else
    max 0 (min 100 (jsRoundR (cvScoreP symptomEvents windowDays * 0.5
      + intensityScoreP symptomEvents * 0.3
      + (((100 - diversityPenaltyP symptomEvents : ℤ)) : ℝ) * 0.2)))

/-- Medication adherence percentage of the persistence-backed consistency
scorer (neutral 70 when no medication events). -/
def adherenceScoreP (medicationEvents : List Event) : ℤ :=
  if 0 < medicationEvents.length then
    jsRound (((medicationEvents.filter
        (fun e => e.adherenceOutcome = "taken")).length : ℚ)
      / (medicationEvents.length : ℚ) * 100)
  else 70

/-- Lifestyle logging regularity of the persistence-backed consistency scorer
(neutral 70 when no lifestyle events or nonpositive window). -/
def lifestyleScoreP (lifestyleEvents : List Event) (windowDays : ℤ) : ℤ :=
  if 0 < lifestyleEvents.length ∧ 0 < windowDays then
    jsRound ((min 1 (((groupByDay lifestyleEvents).length : ℚ)
      / ((max 1 windowDays : ℤ) : ℚ))) * 100)
  else 70

/-- Adherence component of the stateless consistency scorer (neutral 70
below 3 medication events). -/
def adherenceScoreS (medications : List Event) : ℤ :=
  if 3 ≤ medications.length then
    jsRound (((medications.filter
        (fun m => m.adherenceOutcome = "taken")).length : ℚ)
      / (medications.length : ℚ) * 100)
  else 70

/-- Lifestyle day-coverage component of the stateless consistency scorer
(an empty lifestyle list scores 0). -/
def lifestyleScoreS (lifestyle : List Event) (windowDays : ℤ) : ℤ :=
  jsRound ((min 1 (((groupByDay lifestyle).length : ℚ)
    / ((max 1 windowDays : ℤ) : ℚ))) * 100)

/-- computeBehavioralConsistency of the stateless scorer (part_009 lines
340-354): adherence and lifestyle day-coverage are ALWAYS blended
0.6 / 0.4. -/
def computeBehavioralConsistencyS (medications lifestyle : List Event)
    (windowDays : ℤ) : ℤ :=
  jsRound ((adherenceScoreS medications : ℚ) * 0.6
    + (lifestyleScoreS lifestyle windowDays : ℚ) * 0.4)

/-- computeBehavioralConsistency of the persistence-backed scorer (part_009
lines 607-643): blend weights chosen by which signal types are present,
neutral 70 when neither is. -/
def computeBehavioralConsistencyP (medicationEvents lifestyleEvents : List Event)
    (windowDays : ℤ) : ℤ :=
  if 0 < medicationEvents.length ∧ 0 < lifestyleEvents.length then
    jsRound ((adherenceScoreP medicationEvents : ℚ) * 0.6
      + (lifestyleScoreP lifestyleEvents windowDays : ℚ) * 0.4)
  else if 0 < medicationEvents.length then adherenceScoreP medicationEvents
  else if 0 < lifestyleEvents.length then lifestyleScoreP lifestyleEvents windowDays
  else 70

/-- Blend weights as a function of which signal types are present (the
claim's reading of the persistence-backed scorer). -/
def blendWeights (hasMeds hasLifestyle : Bool) : ℚ × ℚ :=
  match hasMeds, hasLifestyle with
  | true, true => (0.6, 0.4)
  | true, false => (1, 0)
  | false, true => (0, 1)
  | false, false => (0, 0)

/-- Per-day burden accumulation shared by the two trajectory scorers: count
and summed intensity (parse failure contributing the moderate default 5). -/
def groupBurden (parse : Option String → Option ℚ) (symptoms : List Event) :
    List (String × (ℕ × ℚ)) :=
  symptoms.foldl (fun m e =>
    let inten := (parse e.intensity).getD 5
    match alLookup m (dayKey e) with
    | some _ => alUpdate m (dayKey e) (fun p => (p.1 + 1, p.2 + inten))
    | none => m ++ [(dayKey e, (1, inten))]) []

/-- Per-day burden values sorted by ascending day key: count times mean
intensity of the day. -/
def burdenValues (parse : Option String → Option ℚ) (symptoms : List Event) :
    List ℚ :=
  ((groupBurden parse symptoms).mergeSort
      (fun a b => decide (a.1 ≤ b.1))).map
    (fun p => (p.2.1 : ℚ) * (p.2.2 / (p.2.1 : ℚ)))

/-- computeTrajectoryDirection of the stateless scorer: neutral 55 below 5
events, else the clamped, negated regression slope of per-day burden. -/
def computeTrajectoryDirectionS (symptoms : List Event) (windowDays : ℤ) : ℤ :=
  if symptoms.length < 5 then 55
  else
    jsRound (max 10 (min 95
      (60 - linearRegressionSlope (burdenValues parseIntensityS symptoms) * 60)))

/-- computeTrajectoryDirection of the persistence-backed scorer: neutral 60
below 3 events, else the same clamped slope map. -/
def computeTrajectoryDirectionP (symptomEvents : List Event) (windowDays : ℤ) : ℤ :=
  if symptomEvents.length < 3 then 60
  else
    jsRound (max 10 (min 95
      (60 - linearRegressionSlope (burdenValues parseIntensityP symptomEvents) * 60)))

/-- Clamp an integer score into [0, 100]. -/
def clamp0100 (n : ℤ) : ℤ := max 0 (min 100 n)

/-- Window filter of computeHSI: events whose parsed date lies between
windowStart and now (a NaN date fails both comparisons and is dropped). -/
def windowFilter (events : List Event) (windowDays now : ℤ) : List Event :=
  events.filter (fun e =>
    jsLe (some (now - windowDays * 86400000)) e.ts.parsedMs
      && jsLe e.ts.parsedMs (some now))

/-- Days between the first and last windowed event, none when either end is
unparseable (unreachable behind the window filter). -/
def spanDays (windowEvents : List Event) : Option ℚ :=
  match windowEvents.head?, windowEvents.getLast? with
  | some f, some l =>
    match f.ts.parsedMs, l.ts.parsedMs with
    | some a, some b => some (|(b - a : ℤ)| / (86400000 : ℚ))
    | _, _ => none
  | _, _ => none

/-- JS comparison span >= threshold with NaN giving false. -/
def jsGeQ : Option ℚ → ℚ → Bool
  | some a, b => b ≤ a
  | none, _ => false

/-- dataConfidence tier from windowed event count, distinct event types and
data span. -/
def dataConfidenceOf (windowEvents : List Event) : Confidence :=
  let types := (dedup (windowEvents.map Event.eventType)).length
  let span := if 1 < windowEvents.length then spanDays windowEvents else some 0
  if 30 ≤ windowEvents.length ∧ 3 ≤ types ∧ jsGeQ span 21 then .high
  else if 15 ≤ windowEvents.length ∧ 2 ≤ types ∧ jsGeQ span 14 then .medium
  else .low

/-- Body of the stateless computeHSI once the window has been filtered. -/
noncomputable def hsiFromWindowS (windowEvents : List Event)
    (windowDays now : ℤ) : HSIScore :=
  let symptomEvents := windowEvents.filter (fun e => e.eventType = .symptom)
  let medicationEvents := windowEvents.filter (fun e => e.eventType = .medication)
  let lifestyleEvents := windowEvents.filter (fun e => e.eventType = .lifestyle)
  let symptomRegularity := computeSymptomRegularityS symptomEvents windowDays
  let behavioralConsistency :=
    computeBehavioralConsistencyS medicationEvents lifestyleEvents windowDays
  let trajectoryDirection := computeTrajectoryDirectionS symptomEvents windowDays
  ⟨clamp0100 (jsRound ((symptomRegularity : ℚ) * 0.4
      + (behavioralConsistency : ℚ) * 0.3 + (trajectoryDirection : ℚ) * 0.3)),
   symptomRegularity, behavioralConsistency, trajectoryDirection,
   windowDays, dataConfidenceOf windowEvents,
   windowEvents.map Event.id, now⟩

/-- computeHSI of the stateless scorer (part_009 lines 382-439), with the
clock injected. -/
noncomputable def computeHSIS (events : List Event) (windowDays now : ℤ) :
    HSIScore :=
  hsiFromWindowS (windowFilter events windowDays now) windowDays now

/-- Body of the persistence-backed computeHSI once the window has been
filtered. -/
noncomputable def hsiFromWindowP (windowEvents : List Event)
    (windowDays now : ℤ) : HSIScore :=
  let symptomEvents := windowEvents.filter (fun e => e.eventType = .symptom)
  let medicationEvents := windowEvents.filter (fun e => e.eventType = .medication)
  let lifestyleEvents := windowEvents.filter (fun e => e.eventType = .lifestyle)
  let symptomRegularity := computeSymptomRegularityP symptomEvents windowDays
  let behavioralConsistency :=
    computeBehavioralConsistencyP medicationEvents lifestyleEvents windowDays
  let trajectoryDirection := computeTrajectoryDirectionP symptomEvents windowDays
  ⟨clamp0100 (jsRound ((symptomRegularity : ℚ) * 0.4
      + (behavioralConsistency : ℚ) * 0.3 + (trajectoryDirection : ℚ) * 0.3)),
   symptomRegularity, behavioralConsistency, trajectoryDirection,
   windowDays, dataConfidenceOf windowEvents,
   windowEvents.map Event.id, now⟩

/-- computeHSI of the persistence-backed scorer (part_009 lines 690-751),
with the clock injected. -/
noncomputable def computeHSIP (events : List Event) (windowDays now : ℤ) :
    HSIScore :=
  hsiFromWindowP (windowFilter events windowDays now) windowDays now

-- =========================================================================
-- Rounding helpers
-- =========================================================================

theorem ratFloor_eq_intFloor (q : ℚ) : Rat.floor q = ⌊q⌋ := by
  rw [Rat.floor_def', Rat.floor_def]

theorem jsRound_eq (q : ℚ) : jsRound q = ⌊q + 1/2⌋ := by
  unfold jsRound
  rw [ratFloor_eq_intFloor]

theorem jsRound_intCast (n : ℤ) : jsRound ((n : ℚ)) = n := by
  rw [jsRound_eq, Int.floor_eq_iff]
  constructor
  · push_cast
    linarith
  · push_cast
    linarith

theorem jsRoundR_rat (q : ℚ) : jsRoundR ((q : ℝ)) = jsRound q := by
  unfold jsRoundR
  rw [jsRound_eq,
    show ((q : ℝ) + 1/2) = (((q + 1/2 : ℚ) : ℝ)) by push_cast; ring,
    Rat.floor_cast]

theorem jsRound_bounds {lo hi : ℤ} {q : ℚ} (h1 : (lo : ℚ) ≤ q)
    (h2 : q ≤ (hi : ℚ)) : lo ≤ jsRound q ∧ jsRound q ≤ hi := by
  rw [jsRound_eq]
  constructor
  · rw [Int.le_floor]
    push_cast
    linarith
  · have hf : ((⌊q + 1/2⌋ : ℤ) : ℚ) ≤ q + 1/2 := Int.floor_le _
    have : ((⌊q + 1/2⌋ : ℤ) : ℚ) < (hi : ℚ) + 1 := by linarith
    exact_mod_cast Int.lt_add_one_iff.mp (by exact_mod_cast this)

theorem jsRoundR_bounds {lo hi : ℤ} {x : ℝ} (h1 : (lo : ℝ) ≤ x)
    (h2 : x ≤ (hi : ℝ)) : lo ≤ jsRoundR x ∧ jsRoundR x ≤ hi := by
  unfold jsRoundR
  constructor
  · rw [Int.le_floor]
    push_cast
    linarith
  · have hf : ((⌊x + 1/2⌋ : ℤ) : ℝ) ≤ x + 1/2 := Int.floor_le _
    have : ((⌊x + 1/2⌋ : ℤ) : ℝ) < (hi : ℝ) + 1 := by linarith
    exact_mod_cast Int.lt_add_one_iff.mp (by exact_mod_cast this)

-- =========================================================================
-- Claim C4: behavioral consistency on empty inputs and blend weights
-- =========================================================================

/-- Counterexample to claim C4 as stated: the stateless
computeBehavioralConsistency applied to an empty medication list and an empty
lifestyle list returns 42 (0.6 times its internal 70 adherence default plus
0.4 times a lifestyle coverage of zero), not the neutral default 70. -/
theorem c4_empty_inputs_counterexample :
    computeBehavioralConsistencyS ([] : List Event) ([] : List Event) 30 = 42
    ∧ (42 : ℤ) ≠ 70 := by
  constructor
  · have ha : adherenceScoreS [] = 70 := by
      unfold adherenceScoreS
      norm_num
    have hl : lifestyleScoreS [] 30 = 0 := by
      unfold lifestyleScoreS groupByDay
      rw [jsRound_eq]
      norm_num [min_def]
    unfold computeBehavioralConsistencyS
    rw [ha, hl, jsRound_eq]
    norm_num
  · decide

/-- Claim C4 as amended: in the persistence-backed
computeBehavioralConsistency, an empty medication list and empty lifestyle
list yield the fixed neutral 70, and otherwise the result is a blend of the
adherence and lifestyle components under weights that depend only on which of
the two signal types are present. -/
theorem c4_blend_weights_by_presence (m l : List Event) (W : ℤ) :
    computeBehavioralConsistencyP m l W =
      (if m.length = 0 ∧ l.length = 0 then 70
       else jsRound
         ((blendWeights (decide (0 < m.length)) (decide (0 < l.length))).1
            * (adherenceScoreP m : ℚ)
          + (blendWeights (decide (0 < m.length)) (decide (0 < l.length))).2
            * (lifestyleScoreP l W : ℚ))) := by
  unfold computeBehavioralConsistencyP
  by_cases hm : 0 < m.length
  · have hmt : decide (0 < m.length) = true := by simpa using hm
    by_cases hl : 0 < l.length
    · have hlt : decide (0 < l.length) = true := by simpa using hl
      rw [if_pos ⟨hm, hl⟩, if_neg (by omega), hmt, hlt]
      simp only [blendWeights]
      congr 1
      ring
    · have hlf : decide (0 < l.length) = false := by simpa using hl
      rw [if_neg (by tauto), if_pos hm, if_neg (by omega), hmt, hlf]
      simp only [blendWeights]
      rw [show ((1 : ℚ) * (adherenceScoreP m : ℚ)
          + 0 * (lifestyleScoreP l W : ℚ)) = ((adherenceScoreP m : ℤ) : ℚ) by ring]
      rw [jsRound_intCast]
  · have hmf : decide (0 < m.length) = false := by simpa using hm
    by_cases hl : 0 < l.length
    · have hlt : decide (0 < l.length) = true := by simpa using hl
      rw [if_neg (by tauto), if_neg hm, if_pos hl, if_neg (by omega), hmf, hlt]
      simp only [blendWeights]
      rw [show ((0 : ℚ) * (adherenceScoreP m : ℚ)
          + 1 * (lifestyleScoreP l W : ℚ)) = ((lifestyleScoreP l W : ℤ) : ℚ) by ring]
      rw [jsRound_intCast]
    · rw [if_neg (by tauto), if_neg hm, if_neg hl, if_pos (by omega)]

-- =========================================================================
-- Claims C5 and C3: symptom regularity guards and zero-day inclusion
-- =========================================================================

/-- One symptom event (for the C5 counterexample). -/
def c5Ex1 : List Event :=
  [symEvent "s1" "2024-01-01T00:00:00Z" (some 0) "headache" none]

/-- Two symptom events on two days (for the C5 counterexample). -/
def c5Ex2 : List Event :=
  [symEvent "s1" "2024-01-01T00:00:00Z" (some 0) "headache" none,
   symEvent "s2" "2024-01-02T00:00:00Z" (some 86400000) "headache" none]

theorem cvP_one_zero : coefficientOfVariationP [1, 0] = 1 := by
  unfold coefficientOfVariationP standardDeviation
  have hm : listMean [1, 0] = 1/2 := by
    unfold listMean
    norm_num
  have hv : listVariance [1, 0] = 1/4 := by
    unfold listVariance
    rw [hm]
    norm_num
  rw [if_neg (by norm_num), if_neg (by rw [hm]; norm_num),
    if_neg (by norm_num), hm, hv]
  rw [show (((1 : ℚ)/4 : ℚ) : ℝ) = (1/2 : ℝ) ^ 2 by norm_num]
  rw [Real.sqrt_sq (by norm_num)]
  rw [show |(((1 : ℚ)/2 : ℚ) : ℝ)| = (1/2 : ℝ) from by
    rw [abs_of_pos (by norm_num)]
    norm_num]
  norm_num

theorem cvP_one_one : coefficientOfVariationP [1, 1] = 0 := by
  unfold coefficientOfVariationP standardDeviation
  have hm : listMean [1, 1] = 1 := by
    unfold listMean
    norm_num
  have hv : listVariance [1, 1] = 0 := by
    unfold listVariance
    rw [hm]
    norm_num
  rw [if_neg (by norm_num), if_neg (by rw [hm]; norm_num),
    if_neg (by norm_num), hm, hv]
  norm_num

/-- Counterexample to claim C5 as stated: below 3 symptom events the
persistence-backed computeSymptomRegularity does not return one fixed
neutral constant; it computes the statistic, giving 70 for one event and 90
for two events over a 2-day window (its own empty-list default being 80). -/
theorem c5_small_sample_counterexample :
    c5Ex1.length < 3 ∧ c5Ex2.length < 3
    ∧ computeSymptomRegularityP c5Ex1 2 = 70
    ∧ computeSymptomRegularityP c5Ex2 2 = 90
    ∧ (70 : ℤ) ≠ 80 ∧ (90 : ℤ) ≠ 80 ∧ (70 : ℤ) ≠ (90 : ℤ) := by
  have hint1 : intensityScoreP c5Ex1 = 70 := by
    unfold intensityScoreP
    rw [show c5Ex1.filterMap (fun e => parseIntensityP e.intensity) = []
      from by decide]
    norm_num
  have hint2 : intensityScoreP c5Ex2 = 70 := by
    unfold intensityScoreP
    rw [show c5Ex2.filterMap (fun e => parseIntensityP e.intensity) = []
      from by decide]
    norm_num
  have hpen1 : diversityPenaltyP c5Ex1 = 5 := by
    unfold diversityPenaltyP
    rw [show (dedup (c5Ex1.map (fun e => lowerTrim e.description))).length = 1
      from by decide]
    decide
  have hpen2 : diversityPenaltyP c5Ex2 = 5 := by
    unfold diversityPenaltyP
    rw [show (dedup (c5Ex2.map (fun e => lowerTrim e.description))).length = 1
      from by decide]
    decide
  have hcv1 : cvScoreP c5Ex1 2 = 60 := by
    unfold cvScoreP
    rw [show countValuesP c5Ex1 2 = [1, 0] from by decide, cvP_one_zero]
    rw [max_def, min_def]
    norm_num
  have hcv2 : cvScoreP c5Ex2 2 = 100 := by
    unfold cvScoreP
    rw [show countValuesP c5Ex2 2 = [1, 1] from by decide, cvP_one_one]
    rw [max_def, min_def]
    norm_num
  refine ⟨by decide, by decide, ?_, ?_, by decide, by decide, by decide⟩
  · unfold computeSymptomRegularityP
    rw [if_neg (by decide), hcv1, hint1, hpen1]
    rw [show ((60 : ℝ) * 0.5 + 70 * 0.3 + (((100 - 5 : ℤ)) : ℝ) * 0.2)
      = (((70 : ℚ)) : ℝ) from by push_cast; norm_num]
    rw [jsRoundR_rat, jsRound_eq]
    norm_num
  · unfold computeSymptomRegularityP
    rw [if_neg (by decide), hcv2, hint2, hpen2]
    rw [show ((100 : ℝ) * 0.5 + 70 * 0.3 + (((100 - 5 : ℤ)) : ℝ) * 0.2)
      = (((90 : ℚ)) : ℝ) from by push_cast; norm_num]
    rw [jsRoundR_rat, jsRound_eq]
    norm_num

/-- Claim C5 as amended: the stateless computeSymptomRegularity returns the
fixed neutral 60 for every list of fewer than 3 symptom events, and the
persistence-backed one returns its fixed neutral 80 for the empty list. -/
theorem c5_small_sample_defaults (symptoms : List Event) (W W2 : ℤ)
    (h : symptoms.length < 3) :
    computeSymptomRegularityS symptoms W = 60
    ∧ computeSymptomRegularityP [] W2 = 80 := by
  constructor
  · unfold computeSymptomRegularityS
    rw [if_pos h]
  · unfold computeSymptomRegularityP
    rw [if_pos (by decide)]

/-- Witness for c5_small_sample_defaults at one concrete event. -/
theorem c5_small_sample_defaults_witness :
    c5Ex1.length < 3
    ∧ computeSymptomRegularityS c5Ex1 30 = 60
    ∧ computeSymptomRegularityP [] 30 = 80 :=
  ⟨by decide, c5_small_sample_defaults c5Ex1 30 30 (by decide)⟩

/-- Eight symptom events, four on each of two days (for the C3
counterexample, with a 4-day window). -/
def c3Ex : List Event :=
  [symEvent "a1" "2024-01-01T00:00:00Z" (some 0) "headache" none,
   symEvent "a2" "2024-01-01T01:00:00Z" (some 3600000) "headache" none,
   symEvent "a3" "2024-01-01T02:00:00Z" (some 7200000) "headache" none,
   symEvent "a4" "2024-01-01T03:00:00Z" (some 10800000) "headache" none,
   symEvent "b1" "2024-01-02T00:00:00Z" (some 86400000) "headache" none,
   symEvent "b2" "2024-01-02T01:00:00Z" (some 90000000) "headache" none,
   symEvent "b3" "2024-01-02T02:00:00Z" (some 93600000) "headache" none,
   symEvent "b4" "2024-01-02T03:00:00Z" (some 97200000) "headache" none]

theorem cvS_four_four : coefficientOfVariationS [4, 4] = 0 := by
  unfold coefficientOfVariationS
  have hm : listMean [4, 4] = 4 := by
    unfold listMean
    norm_num
  have hv : listVariance [4, 4] = 0 := by
    unfold listVariance
    rw [hm]
    norm_num
  rw [if_neg (by norm_num), if_neg (by rw [hm]; norm_num), hv]
  norm_num

theorem cvS_zero_filled : coefficientOfVariationS [4, 4, 0, 0] = 1 := by
  unfold coefficientOfVariationS
  have hm : listMean [4, 4, 0, 0] = 2 := by
    unfold listMean
    norm_num
  have hv : listVariance [4, 4, 0, 0] = 4 := by
    unfold listVariance
    rw [hm]
    norm_num
  rw [if_neg (by norm_num), if_neg (by rw [hm]; norm_num), hm, hv]
  rw [show (((4 : ℚ)) : ℝ) = (2 : ℝ) ^ 2 by norm_num]
  rw [Real.sqrt_sq (by norm_num)]
  norm_num

/-- Counterexample to claim C3 as stated, against the stateless scorer: on
eight symptom events over two observed days in a 4-day window its count CV
is 0 (days [4,4]) and the sub-score is 80, while the claimed CV over all
four window days (values [4,4,0,0]) is 1, giving 55: the stateless scorer
omits zero-count days rather than including them. -/
theorem c3_zero_days_counterexample :
    3 ≤ c3Ex.length
    ∧ computeSymptomRegularityS c3Ex 4 = 80
    ∧ computeSymptomRegularitySSpec c3Ex 4 = 55
    ∧ (80 : ℤ) ≠ 55 := by
  have hint : intensityScoreS c3Ex = 70 := by
    unfold intensityScoreS
    rw [show c3Ex.filterMap (fun s => parseIntensityS s.intensity) = []
      from by decide]
    norm_num
  have hpen : diversityPenaltyS c3Ex = 0 := by
    unfold diversityPenaltyS
    rw [show (dedup (c3Ex.map (fun s => lowerTrim s.description))).length = 1
      from by decide]
    decide
  have hcv : cvScoreS c3Ex = 90 := by
    unfold cvScoreS
    rw [show sCountValues c3Ex = [4, 4] from by decide, cvS_four_four]
    rw [max_def, min_def]
    norm_num
  have hcvSpec : cvScoreSSpec c3Ex 4 = 40 := by
    unfold cvScoreSSpec
    rw [show specWindowCounts c3Ex 4 = [4, 4, 0, 0] from by decide,
      cvS_zero_filled]
    rw [max_def, min_def]
    norm_num
  refine ⟨by decide, ?_, ?_, by decide⟩
  · unfold computeSymptomRegularityS
    rw [if_neg (by decide), hcv, hint, hpen]
    rw [show max (5 : ℝ) ((90 * 0.5 + 70 * 0.5) - (((0 : ℤ)) : ℝ))
      = (((80 : ℚ)) : ℝ) from by rw [max_def]; push_cast; norm_num]
    rw [jsRoundR_rat, jsRound_eq]
    norm_num
  · unfold computeSymptomRegularitySSpec
    rw [if_neg (by decide), hcvSpec, hint, hpen]
    rw [show max (5 : ℝ) ((40 * 0.5 + 70 * 0.5) - (((0 : ℤ)) : ℝ))
      = (((55 : ℚ)) : ℝ) from by rw [max_def]; push_cast; norm_num]
    rw [jsRoundR_rat, jsRound_eq]
    norm_num

/-- Claim C3 as amended: in the persistence-backed scorer, provided the
window length is at least one day and the number of observed symptom days
does not exceed it, the value list fed to the count CV equals the per-day
symptom counts over all windowDays days of the window with zero-count days
included, so the count CV is the coefficient of variation of those counts. -/
theorem c3_zero_days_included (symptoms : List Event) (W : ℤ) (hW : 1 ≤ W)
    (hd : ((groupByDay symptoms).length : ℤ) ≤ W) :
    countValuesP symptoms W = specWindowCounts symptoms W
    ∧ coefficientOfVariationP (countValuesP symptoms W)
        = coefficientOfVariationP (specWindowCounts symptoms W) := by
  have h : countValuesP symptoms W = specWindowCounts symptoms W := by
    unfold countValuesP specWindowCounts
    congr 1
    rw [List.length_map]
    congr 1
    rw [max_eq_left hW]
    omega
  exact ⟨h, by rw [h]⟩

/-- Witness for c3_zero_days_included on the eight-event input over a 4-day
window. -/
theorem c3_zero_days_included_witness :
    ((1 : ℤ) ≤ 4 ∧ (((groupByDay c3Ex).length : ℤ) ≤ 4))
    ∧ (countValuesP c3Ex 4 = specWindowCounts c3Ex 4
       ∧ coefficientOfVariationP (countValuesP c3Ex 4)
           = coefficientOfVariationP (specWindowCounts c3Ex 4)) :=
  ⟨⟨by norm_num, by decide⟩, c3_zero_days_included c3Ex 4 (by norm_num) (by decide)⟩

-- =========================================================================
-- Claim C8: HSI scores and sub-scores are clamped to [0, 100]
-- =========================================================================

theorem computeSymptomRegularityS_bounds (s : List Event) (W : ℤ) :
    0 ≤ computeSymptomRegularityS s W ∧ computeSymptomRegularityS s W ≤ 100 := by
  unfold computeSymptomRegularityS
  split
  · norm_num
  · have hcv : cvScoreS s ≤ 95 := by
      unfold cvScoreS
      exact max_le (by norm_num) (min_le_left _ _)
    have hint : intensityScoreS s ≤ 95 := by
      unfold intensityScoreS
      split
      · exact max_le (by norm_num) (min_le_left _ _)
      · norm_num
    have hpen : (0 : ℝ) ≤ ((diversityPenaltyS s : ℤ) : ℝ) := by
      have h0 : (0 : ℤ) ≤ diversityPenaltyS s := le_max_left 0 _
      exact_mod_cast h0
    have h5 : ((5 : ℤ) : ℝ) ≤ max 5 ((cvScoreS s * 0.5 + intensityScoreS s * 0.5)
        - ((diversityPenaltyS s : ℤ) : ℝ)) := by
      push_cast
      exact le_max_left _ _
    have h95 : max (5 : ℝ) ((cvScoreS s * 0.5 + intensityScoreS s * 0.5)
        - ((diversityPenaltyS s : ℤ) : ℝ)) ≤ ((95 : ℤ) : ℝ) := by
      push_cast
      exact max_le (by norm_num) (by linarith)
    have hb := jsRoundR_bounds h5 h95
    constructor
    · linarith [hb.1]
    · linarith [hb.2]

theorem computeSymptomRegularityP_bounds (s : List Event) (W : ℤ) :
    0 ≤ computeSymptomRegularityP s W ∧ computeSymptomRegularityP s W ≤ 100 := by
  unfold computeSymptomRegularityP
  split
  · norm_num
  · exact ⟨le_max_left 0 _, max_le (by norm_num) (min_le_left _ _)⟩

theorem adherenceScoreS_bounds (m : List Event) :
    0 ≤ adherenceScoreS m ∧ adherenceScoreS m ≤ 100 := by
  unfold adherenceScoreS
  split
  case isTrue h =>
    have hn : (0 : ℚ) < (m.length : ℚ) := by
      have : 0 < m.length := by omega
      exact_mod_cast this
    have ht : ((m.filter (fun x => x.adherenceOutcome = "taken")).length : ℚ)
        ≤ (m.length : ℚ) := by
      exact_mod_cast List.length_filter_le _ m
    have h1 : ((m.filter (fun x => x.adherenceOutcome = "taken")).length : ℚ)
        / (m.length : ℚ) ≤ 1 := div_le_one_of_le ht (le_of_lt hn)
    have h0 : (0 : ℚ) ≤ ((m.filter (fun x => x.adherenceOutcome = "taken")).length : ℚ)
        / (m.length : ℚ) := by positivity
    exact @jsRound_bounds 0 100 _ (by push_cast; nlinarith)
      (by push_cast; nlinarith)
  case isFalse h => norm_num

theorem lifestyleScoreS_bounds (l : List Event) (W : ℤ) :
    0 ≤ lifestyleScoreS l W ∧ lifestyleScoreS l W ≤ 100 := by
  unfold lifestyleScoreS
  have hden : (0 : ℚ) < ((max 1 W : ℤ) : ℚ) := by
    have : (0 : ℤ) < max 1 W := lt_of_lt_of_le zero_lt_one (le_max_left 1 W)
    exact_mod_cast this
  have h0 : (0 : ℚ) ≤ min 1 (((groupByDay l).length : ℚ) / ((max 1 W : ℤ) : ℚ)) := by
    apply le_min (by norm_num)
    positivity
  have h1 : min (1 : ℚ) (((groupByDay l).length : ℚ) / ((max 1 W : ℤ) : ℚ)) ≤ 1 :=
    min_le_left _ _
  refine @jsRound_bounds 0 100 _ ?_ ?_
  · rw [show ((0 : ℤ) : ℚ) = 0 from by norm_num]
    nlinarith [h0]
  · rw [show ((100 : ℤ) : ℚ) = 100 from by norm_num]
    nlinarith [h1]

theorem computeBehavioralConsistencyS_bounds (m l : List Event) (W : ℤ) :
    0 ≤ computeBehavioralConsistencyS m l W
    ∧ computeBehavioralConsistencyS m l W ≤ 100 := by
  unfold computeBehavioralConsistencyS
  have ha := adherenceScoreS_bounds m
  have hl := lifestyleScoreS_bounds l W
  have ha1 : (0 : ℚ) ≤ (adherenceScoreS m : ℚ) := by exact_mod_cast ha.1
  have ha2 : (adherenceScoreS m : ℚ) ≤ 100 := by exact_mod_cast ha.2
  have hl1 : (0 : ℚ) ≤ (lifestyleScoreS l W : ℚ) := by exact_mod_cast hl.1
  have hl2 : (lifestyleScoreS l W : ℚ) ≤ 100 := by exact_mod_cast hl.2
  exact @jsRound_bounds 0 100 _ (by push_cast; nlinarith)
    (by push_cast; nlinarith)

theorem adherenceScoreP_bounds (m : List Event) :
    0 ≤ adherenceScoreP m ∧ adherenceScoreP m ≤ 100 := by
  unfold adherenceScoreP
  split
  case isTrue h =>
    have hn : (0 : ℚ) < (m.length : ℚ) := by exact_mod_cast h
    have ht : ((m.filter (fun x => x.adherenceOutcome = "taken")).length : ℚ)
        ≤ (m.length : ℚ) := by
      exact_mod_cast List.length_filter_le _ m
    have h1 : ((m.filter (fun x => x.adherenceOutcome = "taken")).length : ℚ)
        / (m.length : ℚ) ≤ 1 := div_le_one_of_le ht (le_of_lt hn)
    have h0 : (0 : ℚ) ≤ ((m.filter (fun x => x.adherenceOutcome = "taken")).length : ℚ)
        / (m.length : ℚ) := by positivity
    exact @jsRound_bounds 0 100 _ (by push_cast; nlinarith)
      (by push_cast; nlinarith)
  case isFalse h => norm_num

theorem lifestyleScoreP_bounds (l : List Event) (W : ℤ) :
    0 ≤ lifestyleScoreP l W ∧ lifestyleScoreP l W ≤ 100 := by
  unfold lifestyleScoreP
  split
  case isTrue h =>
    have hden : (0 : ℚ) < ((max 1 W : ℤ) : ℚ) := by
      have : (0 : ℤ) < max 1 W := lt_of_lt_of_le zero_lt_one (le_max_left 1 W)
      exact_mod_cast this
    have h0 : (0 : ℚ) ≤ min 1 (((groupByDay l).length : ℚ) / ((max 1 W : ℤ) : ℚ)) := by
      apply le_min (by norm_num)
      positivity
    have h1 : min (1 : ℚ) (((groupByDay l).length : ℚ) / ((max 1 W : ℤ) : ℚ)) ≤ 1 :=
      min_le_left _ _
    refine @jsRound_bounds 0 100 _ ?_ ?_
    · rw [show ((0 : ℤ) : ℚ) = 0 from by norm_num]
      nlinarith [h0]
    · rw [show ((100 : ℤ) : ℚ) = 100 from by norm_num]
      nlinarith [h1]
  case isFalse h => norm_num

theorem computeBehavioralConsistencyP_bounds (m l : List Event) (W : ℤ) :
    0 ≤ computeBehavioralConsistencyP m l W
    ∧ computeBehavioralConsistencyP m l W ≤ 100 := by
  unfold computeBehavioralConsistencyP
  have ha := adherenceScoreP_bounds m
  have hl := lifestyleScoreP_bounds l W
  split
  · have ha1 : (0 : ℚ) ≤ (adherenceScoreP m : ℚ) := by exact_mod_cast ha.1
    have ha2 : (adherenceScoreP m : ℚ) ≤ 100 := by exact_mod_cast ha.2
    have hl1 : (0 : ℚ) ≤ (lifestyleScoreP l W : ℚ) := by exact_mod_cast hl.1
    have hl2 : (lifestyleScoreP l W : ℚ) ≤ 100 := by exact_mod_cast hl.2
    exact @jsRound_bounds 0 100 _ (by push_cast; nlinarith)
      (by push_cast; nlinarith)
  · split
    · exact ha
    · split
      · exact hl
      · norm_num

theorem computeTrajectoryDirectionS_bounds (s : List Event) (W : ℤ) :
    0 ≤ computeTrajectoryDirectionS s W ∧ computeTrajectoryDirectionS s W ≤ 100 := by
  unfold computeTrajectoryDirectionS
  split
  · norm_num
  · have h10 : ((10 : ℤ) : ℚ) ≤ max 10 (min 95
        (60 - linearRegressionSlope (burdenValues parseIntensityS s) * 60)) := by
      push_cast
      exact le_max_left _ _
    have h95 : max (10 : ℚ) (min 95
        (60 - linearRegressionSlope (burdenValues parseIntensityS s) * 60))
        ≤ ((95 : ℤ) : ℚ) := by
      push_cast
      exact max_le (by norm_num) (min_le_left _ _)
    have hb := jsRound_bounds h10 h95
    constructor
    · linarith [hb.1]
    · linarith [hb.2]

theorem computeTrajectoryDirectionP_bounds (s : List Event) (W : ℤ) :
    0 ≤ computeTrajectoryDirectionP s W ∧ computeTrajectoryDirectionP s W ≤ 100 := by
  unfold computeTrajectoryDirectionP
  split
  · norm_num
  · have h10 : ((10 : ℤ) : ℚ) ≤ max 10 (min 95
        (60 - linearRegressionSlope (burdenValues parseIntensityP s) * 60)) := by
      push_cast
      exact le_max_left _ _
    have h95 : max (10 : ℚ) (min 95
        (60 - linearRegressionSlope (burdenValues parseIntensityP s) * 60))
        ≤ ((95 : ℤ) : ℚ) := by
      push_cast
      exact max_le (by norm_num) (min_le_left _ _)
    have hb := jsRound_bounds h10 h95
    constructor
    · linarith [hb.1]
    · linarith [hb.2]

theorem clamp0100_bounds (n : ℤ) : 0 ≤ clamp0100 n ∧ clamp0100 n ≤ 100 :=
  ⟨le_max_left 0 _, max_le (by norm_num) (min_le_left _ _)⟩

/-- Bounds in the finite models: for every input, window and clock, the
score, every sub-score and the composite formula of both computeHSI variants
are as claimed — exact for the persistence-backed variant, and exact for the
stateless variant on inputs whose intensity fractions have nonzero
denominators (the IEEE-faithful stateless model below escapes these bounds
through a zero-denominator fraction). -/
theorem hsi_bounds_finite_model (events : List Event) (W now : ℤ) :
    (0 ≤ (computeHSIS events W now).score ∧ (computeHSIS events W now).score ≤ 100)
    ∧ (0 ≤ (computeHSIS events W now).symptomRegularity
       ∧ (computeHSIS events W now).symptomRegularity ≤ 100)
    ∧ (0 ≤ (computeHSIS events W now).behavioralConsistency
       ∧ (computeHSIS events W now).behavioralConsistency ≤ 100)
    ∧ (0 ≤ (computeHSIS events W now).trajectoryDirection
       ∧ (computeHSIS events W now).trajectoryDirection ≤ 100)
    ∧ (computeHSIS events W now).score
        = clamp0100 (jsRound
            (((computeHSIS events W now).symptomRegularity : ℚ) * 0.4
             + ((computeHSIS events W now).behavioralConsistency : ℚ) * 0.3
             + ((computeHSIS events W now).trajectoryDirection : ℚ) * 0.3))
    ∧ (0 ≤ (computeHSIP events W now).score ∧ (computeHSIP events W now).score ≤ 100)
    ∧ (0 ≤ (computeHSIP events W now).symptomRegularity
       ∧ (computeHSIP events W now).symptomRegularity ≤ 100)
    ∧ (0 ≤ (computeHSIP events W now).behavioralConsistency
       ∧ (computeHSIP events W now).behavioralConsistency ≤ 100)
    ∧ (0 ≤ (computeHSIP events W now).trajectoryDirection
       ∧ (computeHSIP events W now).trajectoryDirection ≤ 100)
    ∧ (computeHSIP events W now).score
        = clamp0100 (jsRound
            (((computeHSIP events W now).symptomRegularity : ℚ) * 0.4
             + ((computeHSIP events W now).behavioralConsistency : ℚ) * 0.3
             + ((computeHSIP events W now).trajectoryDirection : ℚ) * 0.3)) := by
  refine ⟨?_, ?_, ?_, ?_, rfl, ?_, ?_, ?_, ?_, rfl⟩
  · exact clamp0100_bounds _
  · exact computeSymptomRegularityS_bounds
      ((windowFilter events W now).filter (fun e => e.eventType = .symptom)) W
  · exact computeBehavioralConsistencyS_bounds
      ((windowFilter events W now).filter (fun e => e.eventType = .medication))
      ((windowFilter events W now).filter (fun e => e.eventType = .lifestyle)) W
  · exact computeTrajectoryDirectionS_bounds
      ((windowFilter events W now).filter (fun e => e.eventType = .symptom)) W
  · exact clamp0100_bounds _
  · exact computeSymptomRegularityP_bounds
      ((windowFilter events W now).filter (fun e => e.eventType = .symptom)) W
  · exact computeBehavioralConsistencyP_bounds
      ((windowFilter events W now).filter (fun e => e.eventType = .medication))
      ((windowFilter events W now).filter (fun e => e.eventType = .lifestyle)) W
  · exact computeTrajectoryDirectionP_bounds
      ((windowFilter events W now).filter (fun e => e.eventType = .symptom)) W

-- =========================================================================
-- Graph summary (buildGraphFromEvents output) and alert engine
-- (src/unnamed/part_008 second module; AlertEngine.ts has the same rule
-- logic plus persistence-only fields)
-- =========================================================================

/-- Node record of a graph summary (the synthetic node-N id string is
omitted: node ids are in bijection with (concept, category) keys and no
consumer modelled here reads them). -/
structure GraphNodeOut where
  concept : String
  category : String
  occurrenceCount : ℕ
  firstSeen : String
  lastSeen : String
deriving DecidableEq, Repr

/-- Edge record of a graph summary. -/
structure GraphEdgeOut where
  sourceNode : NodeKey
  targetNode : NodeKey
  sourceConcept : Option String
  targetConcept : Option String
  relation : Relation
  weight : ℚ
  firstObserved : String
  lastObserved : String
deriving DecidableEq, Repr

/-- Graph summary returned by buildGraphFromEvents. -/
structure GraphSummary where
  nodeCount : ℕ
  edgeCount : ℕ
  topConcepts : List GraphNodeOut
  strongestEdges : List GraphEdgeOut
deriving DecidableEq, Repr

/-- buildGraphFromEvents: the full batch build followed by the top-N
selection, sorted descending by occurrenceCount / weight with the stable JS
sort preserving insertion order on ties. -/
def buildGraphFromEvents (events : List Event) (topN : ℕ) : GraphSummary :=
  let maps := buildGraphMaps events
  ⟨maps.1.length, maps.2.length,
   ((maps.1.mergeSort
       (fun a b => decide (b.2.occurrenceCount ≤ a.2.occurrenceCount))).take topN).map
     (fun p => ⟨p.1.1, p.1.2, p.2.occurrenceCount, p.2.firstSeen, p.2.lastSeen⟩),
   ((maps.2.mergeSort (fun a b => decide (b.2.weight ≤ a.2.weight))).take topN).map
     (fun p =>
       ⟨p.1.1, p.1.2.1,
        (alLookup maps.1 p.1.1).map (fun _ => p.1.1.1),
        (alLookup maps.1 p.1.2.1).map (fun _ => p.1.2.1.1),
        p.1.2.2, p.2.weight, p.2.firstObserved, p.2.lastObserved⟩)⟩

/-- Alert severity levels. -/
inductive AlertSeverity
  | info | warning | attention
deriving DecidableEq, Repr

/-- User alert produced by the evaluator (the synthetic id, triggeredAt
clock rendering and the title / explanation strings are presentation-only
and omitted). -/
structure UserAlert where
  ruleType : String
  severity : AlertSeverity
  evidenceIds : List String
deriving DecidableEq, Repr

/-- Evaluation context of the alert engine. -/
structure AlertEvaluationContext where
  currentHSI : HSIScore
  previousHSI : Option HSIScore
  events : List Event
  graphSummary : Option GraphSummary
deriving Repr

/-- HSI drop rule: fires when a previous score exists and the delta is below
-9 (that is, at most -10 for the integer scores computeHSI produces). -/
def evaluateHSIDrop (ctx : AlertEvaluationContext) (now : ℤ) : Option UserAlert :=
  match ctx.previousHSI with
  | none => none
  | some prev =>
    if ctx.currentHSI.score - prev.score ≥ -9 then none
    else some ⟨"hsi_drop", .warning, ctx.currentHSI.contributingEventIds.take 10⟩

/-- New symptom cluster rule: at least 3 distinct normalized descriptions in
the last 14 days absent from the 60-to-14-days-ago window. -/
def evaluateNewSymptomCluster (ctx : AlertEvaluationContext) (now : ℤ) :
    Option UserAlert :=
  let symptomEvents := ctx.events.filter (fun e => e.eventType = .symptom)
  let recentS := symptomEvents.filter
    (fun e => jsLe (some (now - 14 * 86400000)) e.ts.parsedMs)
  let recentSymptoms := dedup (recentS.map (fun e => lowerTrim e.description))
  let olderSymptoms := dedup ((symptomEvents.filter (fun e =>
      jsLe (some (now - 60 * 86400000)) e.ts.parsedMs
        && jsLt e.ts.parsedMs (some (now - 14 * 86400000)))).map
    (fun e => lowerTrim e.description))
  let newSymptoms := recentSymptoms.filter (fun s => decide (s ∉ olderSymptoms))
  if newSymptoms.length < 3 then none
  else some ⟨"new_symptom_cluster", .attention, (recentS.map Event.id).take 10⟩

/-- Adherence decline rule: at least 5 medication events in the last 14 days
with a taken-rate below 70 percent. -/
def evaluateAdherenceDecline (ctx : AlertEvaluationContext) (now : ℤ) :
    Option UserAlert :=
  let recentMeds := ctx.events.filter (fun e =>
    e.eventType = .medication
      && jsLe (some (now - 14 * 86400000)) e.ts.parsedMs)
  if recentMeds.length < 5 then none
  else
    if ((recentMeds.filter (fun e => e.adherenceOutcome = "taken")).length : ℚ)
        / (recentMeds.length : ℚ) * 100 ≥ 70 then none
    else some ⟨"adherence_decline", .warning, (recentMeds.map Event.id).take 10⟩

/-- Logging gap rule: at least 20 total events and none in the last 7
days.  (The day count reported in the alert text is presentation-only.) -/
def evaluateLoggingGap (ctx : AlertEvaluationContext) (now : ℤ) :
    Option UserAlert :=
  if ctx.events.length < 20 then none
  else
    if ctx.events.any (fun e => jsLe (some (now - 7 * 86400000)) e.ts.parsedMs) then
      none
    else some ⟨"logging_gap", .info, []⟩

/-- Strictly increasing run of rationals. -/
def strictlyIncr : List ℚ → Bool
  | a :: b :: t => decide (a < b) && strictlyIncr (b :: t)
  | _ => true

/-- Escalation check of one description group: sort chronologically (the JS
comparator on valid dates; an unparseable date is ordered as epoch 0, where
the JS comparator is implementation-defined), parse the first number of each
intensity, and fire when the last three parsed values strictly increase. -/
def groupEscalation (evs : List Event) : Option UserAlert :=
  if evs.length < 3 then none
  else
    let sorted := evs.mergeSort
      (fun a b => decide ((a.ts.parsedMs.getD 0) ≤ (b.ts.parsedMs.getD 0)))
    let intensities := sorted.filterMap (fun e =>
      match e.intensity with
      | none => none
      | some s =>
        if s = "" then none
        else (findNumber s.toList).map (fun r => (e, r.1)))
    if 3 ≤ intensities.length then
      let last := intensities.drop (intensities.length - 3)
      if strictlyIncr (last.map Prod.snd) then
        some ⟨"symptom_escalation", .warning, last.map (fun p => p.1.id)⟩
      else none
    else none

/-- First group (in insertion order) whose escalation check fires. -/
def firstEscalation : List (String × List Event) → Option UserAlert
  | [] => none
  | (_, evs) :: t =>
    match groupEscalation evs with
    | some a => some a
    | none => firstEscalation t

/-- Symptom escalation rule: group symptoms by normalized description (JS
Map insertion order) and fire on the first group whose last three parseable
intensities strictly increase. -/
def evaluateSymptomEscalation (ctx : AlertEvaluationContext) (now : ℤ) :
    Option UserAlert :=
  let symptomEvents := ctx.events.filter (fun e => e.eventType = .symptom)
  if symptomEvents.length < 3 then none
  else
    firstEscalation (symptomEvents.foldl (fun m e =>
      match alLookup m (lowerTrim e.description) with
      | some _ => alUpdate m (lowerTrim e.description) (· ++ [e])
      | none => m ++ [(lowerTrim e.description, [e])]) [])

/-- Co-occurrence spike rule: fires on the first strongest edge of weight at
least 4.0, when a graph summary is supplied. -/
def evaluateCoOccurrenceSpike (ctx : AlertEvaluationContext) : Option UserAlert :=
  match ctx.graphSummary with
  | none => none
  | some g =>
    match g.strongestEdges.filter (fun e => decide ((4 : ℚ) ≤ e.weight)) with
    | [] => none
    | _ :: _ => some ⟨"co_occurrence_spike", .info, []⟩

/-- The six rules evaluated unconditionally, results collected in order. -/
def runAlertRules (ctx : AlertEvaluationContext) (now : ℤ) : List UserAlert :=
  (evaluateHSIDrop ctx now).toList
    ++ (evaluateNewSymptomCluster ctx now).toList
    ++ (evaluateAdherenceDecline ctx now).toList
    ++ (evaluateLoggingGap ctx now).toList
    ++ (evaluateSymptomEscalation ctx now).toList
    ++ (evaluateCoOccurrenceSpike ctx).toList

/-- Time of events[0] as the cold-start guard reads it: an empty list or an
empty absolute string falls back to epoch 0 through the JS || 0; an
unparseable non-empty string gives NaN (none). -/
def firstEventTime (ctx : AlertEvaluationContext) : Option ℤ :=
  match ctx.events with
  | [] => some 0
  | e :: _ => if e.ts.absolute = "" then some 0 else e.ts.parsedMs

/-- Days since the first event (NaN propagates as none). -/
def daysSinceFirst (ctx : AlertEvaluationContext) (now : ℤ) : Option ℚ :=
  (firstEventTime ctx).map (fun t => ((now - t : ℤ) : ℚ) / 86400000)

/-- evaluateAlerts: empty under the cold-start guard (fewer than 10 events,
or fewer than 14 days since events[0]; a NaN day count fails the < 14 test
and so passes the guard), else all six rules. -/
def evaluateAlerts (ctx : AlertEvaluationContext) (now : ℤ) : List UserAlert :=
  if ctx.events.length < 10 then []
  else if jsLtQ (daysSinceFirst ctx now) 14 then []
  else runAlertRules ctx now

-- =========================================================================
-- Alert engine lemmas: each rule tags its alert with a fixed ruleType
-- =========================================================================

theorem evaluateHSIDrop_ruleType (ctx : AlertEvaluationContext) (now : ℤ)
    (a : UserAlert) (h : evaluateHSIDrop ctx now = some a) :
    a.ruleType = "hsi_drop" ∧ a.severity = .warning := by
  unfold evaluateHSIDrop at h
  cases hp : ctx.previousHSI with
  | none => rw [hp] at h; exact Option.noConfusion h
  | some prev =>
    rw [hp] at h
    dsimp only at h
    split at h
    · exact Option.noConfusion h
    · injection h with h2
      subst h2
      exact ⟨rfl, rfl⟩

theorem evaluateHSIDrop_some (ctx : AlertEvaluationContext) (now : ℤ)
    (a : UserAlert) (h : evaluateHSIDrop ctx now = some a) :
    ∃ p, ctx.previousHSI = some p ∧ ctx.currentHSI.score - p.score ≤ -10 := by
  unfold evaluateHSIDrop at h
  cases hp : ctx.previousHSI with
  | none => rw [hp] at h; exact Option.noConfusion h
  | some prev =>
    rw [hp] at h
    dsimp only at h
    split at h
    · exact Option.noConfusion h
    · rename_i hd
      exact ⟨prev, rfl, by omega⟩

theorem evaluateHSIDrop_some_of (ctx : AlertEvaluationContext) (now : ℤ)
    (p : HSIScore) (hp : ctx.previousHSI = some p)
    (hd : ctx.currentHSI.score - p.score ≤ -10) :
    evaluateHSIDrop ctx now =
      some ⟨"hsi_drop", .warning, ctx.currentHSI.contributingEventIds.take 10⟩ := by
  unfold evaluateHSIDrop
  rw [hp]
  dsimp only
  rw [if_neg (by omega)]

theorem evaluateNewSymptomCluster_ruleType (ctx : AlertEvaluationContext)
    (now : ℤ) (a : UserAlert) (h : evaluateNewSymptomCluster ctx now = some a) :
    a.ruleType = "new_symptom_cluster" := by
  simp only [evaluateNewSymptomCluster] at h
  split at h
  · exact Option.noConfusion h
  · injection h with h2
    subst h2
    rfl

theorem evaluateAdherenceDecline_ruleType (ctx : AlertEvaluationContext)
    (now : ℤ) (a : UserAlert) (h : evaluateAdherenceDecline ctx now = some a) :
    a.ruleType = "adherence_decline" := by
  simp only [evaluateAdherenceDecline] at h
  split at h
  · exact Option.noConfusion h
  · split at h
    · exact Option.noConfusion h
    · injection h with h2
      subst h2
      rfl

theorem evaluateLoggingGap_ruleType (ctx : AlertEvaluationContext)
    (now : ℤ) (a : UserAlert) (h : evaluateLoggingGap ctx now = some a) :
    a.ruleType = "logging_gap" := by
  simp only [evaluateLoggingGap] at h
  split at h
  · exact Option.noConfusion h
  · split at h
    · exact Option.noConfusion h
    · injection h with h2
      subst h2
      rfl

theorem groupEscalation_ruleType (evs : List Event) (a : UserAlert)
    (h : groupEscalation evs = some a) :
    a.ruleType = "symptom_escalation" ∧ a.severity = .warning := by
  simp only [groupEscalation] at h
  split at h
  · exact Option.noConfusion h
  · split at h
    · split at h
      · injection h with h2
        subst h2
        exact ⟨rfl, rfl⟩
      · exact Option.noConfusion h
    · exact Option.noConfusion h

theorem firstEscalation_ruleType (gs : List (String × List Event))
    (a : UserAlert) (h : firstEscalation gs = some a) :
    a.ruleType = "symptom_escalation" ∧ a.severity = .warning := by
  induction gs with
  | nil => exact Option.noConfusion h
  | cons p t ih =>
    obtain ⟨d, evs⟩ := p
    cases hg : groupEscalation evs with
    | none =>
      simp only [firstEscalation, hg] at h
      exact ih h
    | some b =>
      simp only [firstEscalation, hg, Option.some.injEq] at h
      subst h
      exact groupEscalation_ruleType evs b hg

theorem evaluateSymptomEscalation_ruleType (ctx : AlertEvaluationContext)
    (now : ℤ) (a : UserAlert)
    (h : evaluateSymptomEscalation ctx now = some a) :
    a.ruleType = "symptom_escalation" := by
  simp only [evaluateSymptomEscalation] at h
  split at h
  · exact Option.noConfusion h
  · exact (firstEscalation_ruleType _ a h).1

theorem evaluateCoOccurrenceSpike_ruleType (ctx : AlertEvaluationContext)
    (a : UserAlert) (h : evaluateCoOccurrenceSpike ctx = some a) :
    a.ruleType = "co_occurrence_spike" := by
  simp only [evaluateCoOccurrenceSpike] at h
  split at h
  · exact Option.noConfusion h
  · split at h
    · exact Option.noConfusion h
    · injection h with h2
      subst h2
      rfl

theorem optToList_map_sublist {o : Option UserAlert} {r : String}
    (h : ∀ a, o = some a → a.ruleType = r) :
    List.Sublist (o.toList.map UserAlert.ruleType) [r] := by
  cases o with
  | none => simp
  | some a => simp [h a rfl]

theorem runAlertRules_ruleTypes (ctx : AlertEvaluationContext) (now : ℤ) :
    List.Sublist ((runAlertRules ctx now).map UserAlert.ruleType)
      ["hsi_drop", "new_symptom_cluster", "adherence_decline", "logging_gap",
       "symptom_escalation", "co_occurrence_spike"] := by
  have h1 := optToList_map_sublist
    (fun a ha => (evaluateHSIDrop_ruleType ctx now a ha).1)
  have h2 := optToList_map_sublist (evaluateNewSymptomCluster_ruleType ctx now)
  have h3 := optToList_map_sublist (evaluateAdherenceDecline_ruleType ctx now)
  have h4 := optToList_map_sublist (evaluateLoggingGap_ruleType ctx now)
  have h5 := optToList_map_sublist (evaluateSymptomEscalation_ruleType ctx now)
  have h6 := optToList_map_sublist (evaluateCoOccurrenceSpike_ruleType ctx)
  unfold runAlertRules
  simp only [List.map_append]
  exact ((((h1.append h2).append h3).append h4).append h5).append h6

theorem mem_optToList {o : Option UserAlert} {a : UserAlert}
    (hm : a ∈ o.toList) : o = some a := by
  cases o with
  | none => cases hm
  | some b =>
    cases hm with
    | head => rfl
    | tail _ hm2 => cases hm2

theorem mem_runAlertRules_hsi_drop (ctx : AlertEvaluationContext) (now : ℤ)
    (a : UserAlert) (ha : a ∈ runAlertRules ctx now)
    (hr : a.ruleType = "hsi_drop") : evaluateHSIDrop ctx now = some a := by
  unfold runAlertRules at ha
  rcases List.mem_append.1 ha with ha1 | h6
  · rcases List.mem_append.1 ha1 with ha2 | h5
    · rcases List.mem_append.1 ha2 with ha3 | h4
      · rcases List.mem_append.1 ha3 with ha4 | h3
        · rcases List.mem_append.1 ha4 with h1 | h2
          · exact mem_optToList h1
          · rw [evaluateNewSymptomCluster_ruleType ctx now a
              (mem_optToList h2)] at hr
            exact absurd hr (by decide)
        · rw [evaluateAdherenceDecline_ruleType ctx now a
            (mem_optToList h3)] at hr
          exact absurd hr (by decide)
      · rw [evaluateLoggingGap_ruleType ctx now a (mem_optToList h4)] at hr
        exact absurd hr (by decide)
    · rw [evaluateSymptomEscalation_ruleType ctx now a
        (mem_optToList h5)] at hr
      exact absurd hr (by decide)
  · rw [evaluateCoOccurrenceSpike_ruleType ctx a (mem_optToList h6)] at hr
    exact absurd hr (by decide)

-- =========================================================================
-- Cold-start guard lemmas
-- =========================================================================

theorem evaluateAlerts_guard_few (ctx : AlertEvaluationContext) (now : ℤ)
    (h : ctx.events.length < 10) : evaluateAlerts ctx now = [] := by
  unfold evaluateAlerts
  rw [if_pos h]

theorem evaluateAlerts_guard_recent (ctx : AlertEvaluationContext)
    (now t0 : ℤ) (hft : firstEventTime ctx = some t0)
    (h : now - t0 < 14 * 86400000) : evaluateAlerts ctx now = [] := by
  by_cases h10 : ctx.events.length < 10
  · exact evaluateAlerts_guard_few ctx now h10
  · have hd : daysSinceFirst ctx now
        = some (((now - t0 : ℤ) : ℚ) / 86400000) := by
      unfold daysSinceFirst
      rw [hft]
      rfl
    have hq : ((now - t0 : ℤ) : ℚ) / 86400000 < 14 := by
      rw [div_lt_iff (by norm_num : (0:ℚ) < 86400000)]
      calc ((now - t0 : ℤ) : ℚ) < ((14 * 86400000 : ℤ) : ℚ) := by
            exact_mod_cast h
        _ = 14 * 86400000 := by norm_num
    unfold evaluateAlerts
    rw [if_neg h10, hd,
      if_pos (by simp only [jsLtQ, decide_eq_true_eq]; exact hq)]

theorem evaluateAlerts_guard_pass (ctx : AlertEvaluationContext)
    (now t0 : ℤ) (h10 : 10 ≤ ctx.events.length)
    (hft : firstEventTime ctx = some t0)
    (h14 : 14 * 86400000 ≤ now - t0) :
    evaluateAlerts ctx now = runAlertRules ctx now := by
  have hd : daysSinceFirst ctx now
      = some (((now - t0 : ℤ) : ℚ) / 86400000) := by
    unfold daysSinceFirst
    rw [hft]
    rfl
  have hq : ¬ (((now - t0 : ℤ) : ℚ) / 86400000 < 14) := by
    rw [not_lt, le_div_iff (by norm_num : (0:ℚ) < 86400000)]
    calc (14:ℚ) * 86400000 = ((14 * 86400000 : ℤ) : ℚ) := by norm_num
      _ ≤ ((now - t0 : ℤ) : ℚ) := by exact_mod_cast h14
  unfold evaluateAlerts
  rw [if_neg (by omega), hd,
    if_neg (by simp only [jsLtQ, decide_eq_true_eq]; exact hq)]

-- =========================================================================
-- Concrete contexts for the alert-engine examples
-- =========================================================================

/-- A current HSI score of 59 with one contributing event. -/
def hsiCurEx : HSIScore := ⟨59, 60, 55, 60, 30, .low, ["e1"], 1209600000⟩

/-- A previous HSI score of 70. -/
def hsiPrevEx : HSIScore := ⟨70, 70, 70, 70, 30, .low, [], 0⟩

/-- Ten well-formed events timestamped at epoch 0. -/
def guardEvents : List Event :=
  (List.range 10).map
    (fun _ => symEvent "e" "2024-01-01T00:00:00.000Z" (some 0) "headache" none)

/-- Context with 10 events and a 70 → 59 score drop. -/
def ctxOkEx : AlertEvaluationContext :=
  ⟨hsiCurEx, some hsiPrevEx, guardEvents, none⟩

/-- Context with only 9 events. -/
def ctxFewEx : AlertEvaluationContext :=
  ⟨hsiCurEx, some hsiPrevEx, guardEvents.take 9, none⟩

-- =========================================================================
-- Malformed-timestamp example (claim C2)
-- =========================================================================

/-- A well-formed symptom event at 2024-01-01T00:00:00Z. -/
def g1C2 : Event :=
  symEvent "g1" "2024-01-01T00:00:00.000Z" (some 1704067200000) "headache" none

/-- A symptom event whose timestamp string is not parseable ISO-8601:
new Date(...).getTime() is NaN, modelled as parsedMs = none. -/
def badC2 : Event := symEvent "bad1" "01/02/2024 10:00" none "dizziness" (some "5")

/-- Alert context whose first of 10 events has the malformed timestamp. -/
def ctxBadC2 : AlertEvaluationContext :=
  ⟨hsiCurEx, none, badC2 :: guardEvents.take 9, none⟩

-- =========================================================================
-- Claim theorems C6, C7, C10, C2
-- =========================================================================

/-- C6: in any context that passes the cold-start guard (at least 10 events
and the first event at least 14 days old), evaluateAlerts contains an
hsi_drop alert if and only if a previous HSI score exists and the current
score is lower by at least 10 points, and every hsi_drop alert it emits has
severity warning.  (A delta of exactly -9 falls in the `delta >= -9` early
return, so it never fires.) -/
theorem c6_hsi_drop_iff (ctx : AlertEvaluationContext) (now t0 : ℤ)
    (h10 : 10 ≤ ctx.events.length)
    (hft : firstEventTime ctx = some t0)
    (h14 : 14 * 86400000 ≤ now - t0) :
    ((∃ a ∈ evaluateAlerts ctx now, a.ruleType = "hsi_drop")
      ↔ ∃ p, ctx.previousHSI = some p ∧ ctx.currentHSI.score - p.score ≤ -10)
    ∧ ∀ a ∈ evaluateAlerts ctx now, a.ruleType = "hsi_drop" →
        a.severity = .warning := by
  have hrun : evaluateAlerts ctx now = runAlertRules ctx now :=
    evaluateAlerts_guard_pass ctx now t0 h10 hft h14
  rw [hrun]
  constructor
  · constructor
    · rintro ⟨a, ha, hr⟩
      exact evaluateHSIDrop_some ctx now a
        (mem_runAlertRules_hsi_drop ctx now a ha hr)
    · rintro ⟨p, hp, hd⟩
      refine ⟨⟨"hsi_drop", .warning,
        ctx.currentHSI.contributingEventIds.take 10⟩, ?_, rfl⟩
      unfold runAlertRules
      rw [evaluateHSIDrop_some_of ctx now p hp hd]
      simp
  · intro a ha hr
    exact (evaluateHSIDrop_ruleType ctx now a
      (mem_runAlertRules_hsi_drop ctx now a ha hr)).2

/-- C6 witness: with 10 events spanning exactly 14 days and a 70 → 59 score
drop, evaluateAlerts emits an hsi_drop alert. -/
theorem c6_hsi_drop_iff_witness :
    ∃ a ∈ evaluateAlerts ctxOkEx 1209600000, a.ruleType = "hsi_drop" :=
  (c6_hsi_drop_iff ctxOkEx 1209600000 0 (by decide) (by decide)
    (by decide)).1.mpr ⟨hsiPrevEx, rfl, by decide⟩

/-- C7: evaluateAlerts returns the empty list when fewer than 10 events are
present, or when the first event is less than 14 days before the evaluation
time; with at least 10 events and at least 14 days it runs all six rules
(so rules may fire). -/
theorem c7_cold_start_guard (ctx : AlertEvaluationContext) (now t0 : ℤ) :
    (ctx.events.length < 10 → evaluateAlerts ctx now = [])
    ∧ (firstEventTime ctx = some t0 → now - t0 < 14 * 86400000 →
        evaluateAlerts ctx now = [])
    ∧ (10 ≤ ctx.events.length → firstEventTime ctx = some t0 →
        14 * 86400000 ≤ now - t0 →
        evaluateAlerts ctx now = runAlertRules ctx now) :=
  ⟨fun h => evaluateAlerts_guard_few ctx now h,
   fun hft h => evaluateAlerts_guard_recent ctx now t0 hft h,
   fun h10 hft h14 => evaluateAlerts_guard_pass ctx now t0 h10 hft h14⟩

/-- C7 witness: 9 events give no alerts, 10 events over 13 days give no
alerts, and 10 events over exactly 14 days reach the rule evaluators. -/
theorem c7_cold_start_guard_witness :
    evaluateAlerts ctxFewEx 1209600000 = []
    ∧ evaluateAlerts ctxOkEx 1123200000 = []
    ∧ evaluateAlerts ctxOkEx 1209600000 = runAlertRules ctxOkEx 1209600000 :=
  ⟨(c7_cold_start_guard ctxFewEx 1209600000 0).1 (by decide),
   (c7_cold_start_guard ctxOkEx 1123200000 0).2.1 (by decide) (by decide),
   (c7_cold_start_guard ctxOkEx 1209600000 0).2.2 (by decide) (by decide)
     (by decide)⟩

/-- C10: evaluateAlerts returns the rule results in the fixed order
hsi_drop, new_symptom_cluster, adherence_decline, logging_gap,
symptom_escalation, co_occurrence_spike, with at most one alert per rule
type, hence at most 6 alerts with pairwise distinct rule types. -/
theorem c10_alert_order (ctx : AlertEvaluationContext) (now : ℤ) :
    List.Sublist ((evaluateAlerts ctx now).map UserAlert.ruleType)
      ["hsi_drop", "new_symptom_cluster", "adherence_decline", "logging_gap",
       "symptom_escalation", "co_occurrence_spike"]
    ∧ (evaluateAlerts ctx now).length ≤ 6
    ∧ ((evaluateAlerts ctx now).map UserAlert.ruleType).Nodup := by
  have hs : List.Sublist ((evaluateAlerts ctx now).map UserAlert.ruleType)
      ["hsi_drop", "new_symptom_cluster", "adherence_decline", "logging_gap",
       "symptom_escalation", "co_occurrence_spike"] := by
    unfold evaluateAlerts
    split
    · simp
    · split
      · simp
      · exact runAlertRules_ruleTypes ctx now
  refine ⟨hs, ?_, List.Nodup.sublist hs (by decide)⟩
  have hl := hs.length_le
  simpa using hl

/-- C2: contrary to the spec's fail-fast requirement, an event with an
unparseable timestamp.absolute is silently dropped from the HSI window
(computeHSI on a list containing it equals computeHSI without it, and the
bad event never contributes), and evaluateAlerts, whose first event has the
malformed timestamp, silently proceeds to the rule evaluators because the
NaN day count fails the `< 14` comparison: no error is raised on either
path. -/
theorem c2_malformed_timestamp_not_fail_fast :
    badC2.ts.parsedMs = none
    ∧ computeHSIP [g1C2, badC2] 30 1704067200000
        = computeHSIP [g1C2] 30 1704067200000
    ∧ (computeHSIP [g1C2, badC2] 30 1704067200000).contributingEventIds
        = ["g1"]
    ∧ evaluateAlerts ctxBadC2 1704067200000
        = runAlertRules ctxBadC2 1704067200000
    ∧ daysSinceFirst ctxBadC2 1704067200000 = none := by
  refine ⟨rfl, ?_, ?_, ?_, by decide⟩
  · have hw : windowFilter [g1C2, badC2] 30 1704067200000
        = windowFilter [g1C2] 30 1704067200000 := by decide
    unfold computeHSIP
    rw [hw]
  · show (windowFilter [g1C2, badC2] 30 1704067200000).map Event.id = ["g1"]
    decide
  · unfold evaluateAlerts
    rw [if_neg (by decide), if_neg (by decide)]

-- =========================================================================
-- IEEE-faithful number model for the stateless scorer (claim C8)
-- =========================================================================

/-- A JS number as the stateless scorer computes with it: NaN, an infinity,
or a finite real.  The scorer's finite arithmetic is exact in doubles for
the magnitudes involved, so no rounding is modelled; signed zero is
collapsed to 0, which no operation below distinguishes. -/
inductive JSNum where
  | nan
  | pinf
  | ninf
  | fin (x : ℝ)

namespace JSNum

/-- IEEE negation. -/
noncomputable def neg : JSNum → JSNum
  | nan => nan
  | pinf => ninf
  | ninf => pinf
  | fin x => fin (-x)

/-- IEEE addition: NaN absorbs, opposite infinities give NaN. -/
noncomputable def add (a b : JSNum) : JSNum :=
  match a with
  | nan => nan
  | pinf =>
    match b with
    | nan => nan
    | ninf => nan
    | _ => pinf
  | ninf =>
    match b with
    | nan => nan
    | pinf => nan
    | _ => ninf
  | fin x =>
    match b with
    | nan => nan
    | pinf => pinf
    | ninf => ninf
    | fin y => fin (x + y)

/-- IEEE subtraction a - b = a + (-b). -/
noncomputable def sub (a b : JSNum) : JSNum := add a (neg b)

/-- IEEE multiplication: NaN absorbs, zero times an infinity is NaN. -/
noncomputable def mul (a b : JSNum) : JSNum :=
  match a with
  | nan => nan
  | pinf =>
    match b with
    | nan => nan
    | pinf => pinf
    | ninf => ninf
    | fin y => if y = 0 then nan else if 0 < y then pinf else ninf
  | ninf =>
    match b with
    | nan => nan
    | pinf => ninf
    | ninf => pinf
    | fin y => if y = 0 then nan else if 0 < y then ninf else pinf
  | fin x =>
    match b with
    | nan => nan
    | pinf => if x = 0 then nan else if 0 < x then pinf else ninf
    | ninf => if x = 0 then nan else if 0 < x then ninf else pinf
    | fin y => fin (x * y)

/-- IEEE division: NaN absorbs, infinity over infinity is NaN, a nonzero
finite over 0 is a signed infinity (0 over 0 is NaN), finite over infinity
is 0. -/
noncomputable def div (a b : JSNum) : JSNum :=
  match a with
  | nan => nan
  | pinf =>
    match b with
    | fin y => if 0 ≤ y then pinf else ninf
    | _ => nan
  | ninf =>
    match b with
    | fin y => if 0 ≤ y then ninf else pinf
    | _ => nan
  | fin x =>
    match b with
    | nan => nan
    | pinf => fin 0
    | ninf => fin 0
    | fin y =>
      if y = 0 then (if x = 0 then nan else if 0 < x then pinf else ninf)
      else fin (x / y)

/-- Math.sqrt: NaN for NaN or a negative, infinity preserved. -/
noncomputable def sqrt : JSNum → JSNum
  | nan => nan
  | pinf => pinf
  | ninf => nan
  | fin x => if x < 0 then nan else fin (Real.sqrt x)

/-- Math.max of two numbers: NaN if either argument is NaN. -/
noncomputable def maxJ (a b : JSNum) : JSNum :=
  match a with
  | nan => nan
  | pinf =>
    match b with
    | nan => nan
    | _ => pinf
  | ninf =>
    match b with
    | nan => nan
    | c => c
  | fin x =>
    match b with
    | nan => nan
    | pinf => pinf
    | ninf => fin x
    | fin y => fin (max x y)

/-- Math.min of two numbers: NaN if either argument is NaN. -/
noncomputable def minJ (a b : JSNum) : JSNum :=
  match a with
  | nan => nan
  | pinf =>
    match b with
    | nan => nan
    | c => c
  | ninf =>
    match b with
    | nan => nan
    | _ => ninf
  | fin x =>
    match b with
    | nan => nan
    | pinf => fin x
    | ninf => ninf
    | fin y => fin (min x y)

/-- Math.round: NaN and the infinities pass through. -/
noncomputable def roundJ : JSNum → JSNum
  | nan => nan
  | pinf => pinf
  | ninf => ninf
  | fin x => fin ((jsRoundR x : ℤ) : ℝ)

/-- JS <= comparison: false whenever NaN is involved. -/
noncomputable def jsLeJ (a b : JSNum) : Bool :=
  match a with
  | nan => false
  | pinf =>
    match b with
    | pinf => true
    | _ => false
  | ninf =>
    match b with
    | nan => false
    | _ => true
  | fin x =>
    match b with
    | nan => false
    | pinf => true
    | ninf => false
    | fin y => decide (x ≤ y)

/-- reduce((a, b) => a + b, 0) of the source. -/
noncomputable def sumJ (values : List JSNum) : JSNum := values.foldl add (fin 0)

end JSNum

open Classical in
/-- coefficientOfVariation of the stateless scorer over IEEE numbers
(part_009 lines 271-277): same guards, mean, population variance and sqrt
as coefficientOfVariationS, with JS arithmetic. -/
noncomputable def coefficientOfVariationJ (values : List JSNum) : JSNum :=
  if values.length < 2 then .fin 0
  else
    let mean := (JSNum.sumJ values).div (.fin (values.length : ℝ))
    if mean = JSNum.fin 0 then .fin 0
    else
      let variance := (JSNum.sumJ (values.map
        (fun v => (v.sub mean).mul (v.sub mean)))).div (.fin (values.length : ℝ))
      (JSNum.sqrt variance).div mean

/-- parseIntensity of the stateless scorer over IEEE numbers: identical
parsing to parseIntensityS, with the fraction value computed by JS division,
so a zero denominator yields Infinity (NaN for 0/0) instead of the finite
model's 0. -/
noncomputable def parseIntensityJ (intensity : Option String) : Option JSNum :=
  match intensity with
  | none => none
  | some s =>
    if s = "" then none
    else
      match findFraction s.toList with
      | some (a, b) =>
        some (((JSNum.fin (a : ℝ)).div (.fin (b : ℝ))).mul (.fin 10))
      | none =>
        match parseDecimal s.toList with
        | some (v, _) => some (.fin (v : ℝ))
        | none =>
          (intensityKeywordsS.find?
            (fun p => strIncludes (lowerTrim s) p.1)).map
            (fun p => .fin (p.2 : ℝ))

/-- linearRegressionSlope over IEEE numbers: the x-side sums are exact
integers, NaN enters only through the y values. -/
noncomputable def linearRegressionSlopeJ (values : List JSNum) : JSNum :=
  if values.length < 2 then .fin 0
  else
    let n : ℝ := values.length
    let idx := values.enum
    let sumX : ℝ := (((idx.map (fun p => (p.1 : ℚ))).sum : ℚ) : ℝ)
    let sumY := JSNum.sumJ values
    let sumXY := JSNum.sumJ (idx.map (fun p => (JSNum.fin ((p.1 : ℚ) : ℝ)).mul p.2))
    let sumX2 : ℝ := (((idx.map (fun p => (p.1 : ℚ) * (p.1 : ℚ))).sum : ℚ) : ℝ)
    let denom : ℝ := n * sumX2 - sumX * sumX
    if denom = 0 then .fin 0
    else (((JSNum.fin n).mul sumXY).sub ((JSNum.fin sumX).mul sumY)).div (.fin denom)

/-- Per-day burden over IEEE numbers: count and summed intensity, parse
failure contributing the moderate default 5. -/
noncomputable def groupBurdenJ (symptoms : List Event) :
    List (String × (ℕ × JSNum)) :=
  symptoms.foldl (fun m e =>
    let inten := (parseIntensityJ e.intensity).getD (.fin 5)
    match alLookup m (dayKey e) with
    | some _ => alUpdate m (dayKey e) (fun p => (p.1 + 1, p.2.add inten))
    | none => m ++ [(dayKey e, (1, inten))]) []

/-- Per-day burden values by ascending day key over IEEE numbers:
count * (total / count). -/
noncomputable def burdenValuesJ (symptoms : List Event) : List JSNum :=
  ((groupBurdenJ symptoms).mergeSort (fun a b => decide (a.1 ≤ b.1))).map
    (fun p => (JSNum.fin (p.2.1 : ℝ)).mul (p.2.2.div (.fin (p.2.1 : ℝ))))

/-- computeTrajectoryDirection of the stateless scorer over IEEE numbers. -/
noncomputable def computeTrajectoryDirectionJ (symptoms : List Event)
    (windowDays : ℤ) : JSNum :=
  if symptoms.length < 5 then .fin 55
  else
    JSNum.roundJ (JSNum.maxJ (.fin 10) (JSNum.minJ (.fin 95)
      ((JSNum.fin 60).sub
        ((linearRegressionSlopeJ (burdenValuesJ symptoms)).mul (.fin 60)))))

/-- Adherence component of the stateless consistency scorer over IEEE
numbers (the division is by a count of at least 3). -/
noncomputable def adherenceScoreJ (medications : List Event) : JSNum :=
  if 3 ≤ medications.length then
    JSNum.roundJ (((JSNum.fin (((medications.filter
        (fun m => m.adherenceOutcome = "taken")).length : ℕ) : ℝ)).div
      (.fin ((medications.length : ℕ) : ℝ))).mul (.fin 100))
  else .fin 70

/-- Lifestyle day-coverage component of the stateless consistency scorer
over IEEE numbers (the division is by max(1, windowDays)). -/
noncomputable def lifestyleScoreJ (lifestyle : List Event)
    (windowDays : ℤ) : JSNum :=
  JSNum.roundJ ((JSNum.minJ (.fin 1)
    ((JSNum.fin ((groupByDay lifestyle).length : ℝ)).div
      (.fin ((max 1 windowDays : ℤ) : ℝ)))).mul (.fin 100))

/-- computeBehavioralConsistency of the stateless scorer over IEEE
numbers. -/
noncomputable def computeBehavioralConsistencyJ
    (medications lifestyle : List Event) (windowDays : ℤ) : JSNum :=
  JSNum.roundJ (((adherenceScoreJ medications).mul (.fin 0.6)).add
    ((lifestyleScoreJ lifestyle windowDays).mul (.fin 0.4)))

/-- computeSymptomRegularity of the stateless scorer over IEEE numbers:
the shape of computeSymptomRegularityS, so a non-finite parsed intensity
drives the intensity CV, the blend, Math.max and Math.round to NaN. -/
noncomputable def computeSymptomRegularityJ (symptoms : List Event)
    (windowDays : ℤ) : JSNum :=
  if symptoms.length < 3 then .fin 60
  else
    let cv := coefficientOfVariationJ
      ((sCountValues symptoms).map (fun q => JSNum.fin (q : ℝ)))
    let cvScore := JSNum.maxJ (.fin 10) (JSNum.minJ (.fin 95)
      ((JSNum.fin 90).sub (cv.mul (.fin 50))))
    let intensities := symptoms.filterMap (fun s => parseIntensityJ s.intensity)
    let intensityScore :=
      if 3 ≤ intensities.length then
        JSNum.maxJ (.fin 10) (JSNum.minJ (.fin 95)
          ((JSNum.fin 85).sub
            ((coefficientOfVariationJ intensities).mul (.fin 40))))
      else JSNum.fin 70
    JSNum.roundJ (JSNum.maxJ (.fin 5)
      (((cvScore.mul (.fin 0.5)).add (intensityScore.mul (.fin 0.5))).sub
        (.fin ((diversityPenaltyS symptoms : ℤ) : ℝ))))

/-- The IEEE value of the stateless computeHSI composite score (part_009
lines 382-439) with the injected clock: round, then clamp by Math.max and
Math.min, over JS arithmetic.  The integer model computeHSIS is its
restriction to inputs whose parsed intensities stay finite. -/
noncomputable def computeHSIScoreJ (events : List Event)
    (windowDays now : ℤ) : JSNum :=
  let windowEvents := windowFilter events windowDays now
  let symptomEvents := windowEvents.filter (fun e => e.eventType = .symptom)
  let medicationEvents := windowEvents.filter (fun e => e.eventType = .medication)
  let lifestyleEvents := windowEvents.filter (fun e => e.eventType = .lifestyle)
  JSNum.maxJ (.fin 0) (JSNum.minJ (.fin 100) (JSNum.roundJ
    ((((computeSymptomRegularityJ symptomEvents windowDays).mul (.fin 0.4)).add
      ((computeBehavioralConsistencyJ medicationEvents lifestyleEvents
          windowDays).mul (.fin 0.3))).add
      ((computeTrajectoryDirectionJ symptomEvents windowDays).mul (.fin 0.3)))))

-- =========================================================================
-- Concrete events for the zero-denominator intensity (claim C8)
-- =========================================================================

/-- Symptom with the intensity string "5/0": the fraction path divides by
zero, giving Infinity in JS. -/
def c8Ev1 : Event :=
  symEvent "x1" "2024-01-01T08:00:00.000Z" (some 1704096000000) "headache"
    (some "5/0")

/-- Symptom with intensity "3". -/
def c8Ev2 : Event :=
  symEvent "x2" "2024-01-01T09:00:00.000Z" (some 1704099600000) "headache"
    (some "3")

/-- Symptom with intensity "4". -/
def c8Ev3 : Event :=
  symEvent "x3" "2024-01-01T10:00:00.000Z" (some 1704103200000) "headache"
    (some "4")

/-- Three same-day symptoms, one with the zero-denominator intensity. -/
def c8Ex : List Event := [c8Ev1, c8Ev2, c8Ev3]

-- =========================================================================
-- Evaluation lemmas for the IEEE model
-- =========================================================================

theorem div_pinf_natCast (n : ℕ) :
    JSNum.div .pinf (.fin (n : ℝ)) = .pinf := by
  simp only [JSNum.div]
  rw [if_pos (Nat.cast_nonneg n)]

theorem div_fin_zero_pos {x y : ℝ} (hx : 0 < x) (hy : y = 0) :
    JSNum.div (.fin x) (.fin y) = .pinf := by
  simp only [JSNum.div]
  rw [if_pos hy, if_neg hx.ne', if_pos hx]

theorem mul_pinf_fin_pos {y : ℝ} (hy : 0 < y) :
    JSNum.mul .pinf (.fin y) = .pinf := by
  simp only [JSNum.mul]
  rw [if_neg hy.ne', if_pos hy]

theorem cvJ_single (v : JSNum) : coefficientOfVariationJ [v] = .fin 0 := by
  simp only [coefficientOfVariationJ]
  rw [if_pos (by simp)]

theorem cvJ_with_pinf (x y : ℝ) :
    coefficientOfVariationJ [JSNum.pinf, .fin x, .fin y] = .nan := by
  simp only [coefficientOfVariationJ]
  rw [if_neg (by simp)]
  rw [show JSNum.sumJ [JSNum.pinf, .fin x, .fin y] = JSNum.pinf from rfl]
  rw [show (([JSNum.pinf, JSNum.fin x, JSNum.fin y].length : ℕ) : ℝ)
      = ((3 : ℕ) : ℝ) from rfl]
  rw [div_pinf_natCast 3]
  rw [if_neg (fun h => JSNum.noConfusion h)]
  rfl

theorem parseJ_frac : parseIntensityJ (some "5/0") = some JSNum.pinf := by
  simp only [parseIntensityJ]
  rw [if_neg (by decide)]
  rw [show findFraction "5/0".toList = some (5, 0) from by decide]
  show some (((JSNum.fin ((5:ℚ) : ℝ)).div (.fin ((0:ℚ) : ℝ))).mul (.fin 10))
    = some JSNum.pinf
  rw [div_fin_zero_pos (by norm_num) (by norm_num),
    mul_pinf_fin_pos (by norm_num)]

theorem parseJ_three : parseIntensityJ (some "3") = some (JSNum.fin ((3:ℚ) : ℝ)) := by
  simp only [parseIntensityJ]
  rw [if_neg (by decide)]
  rw [show findFraction "3".toList = none from by decide]
  rw [show parseDecimal "3".toList = some (3, []) from by decide]

theorem parseJ_four : parseIntensityJ (some "4") = some (JSNum.fin ((4:ℚ) : ℝ)) := by
  simp only [parseIntensityJ]
  rw [if_neg (by decide)]
  rw [show findFraction "4".toList = none from by decide]
  rw [show parseDecimal "4".toList = some (4, []) from by decide]

theorem c8_intensities :
    c8Ex.filterMap (fun s => parseIntensityJ s.intensity)
      = [JSNum.pinf, .fin ((3:ℚ) : ℝ), .fin ((4:ℚ) : ℝ)] := by
  have h1 : parseIntensityJ c8Ev1.intensity = some JSNum.pinf := parseJ_frac
  have h2 : parseIntensityJ c8Ev2.intensity = some (JSNum.fin ((3:ℚ) : ℝ)) :=
    parseJ_three
  have h3 : parseIntensityJ c8Ev3.intensity = some (JSNum.fin ((4:ℚ) : ℝ)) :=
    parseJ_four
  simp [c8Ex, List.filterMap_cons, h1, h2, h3]

theorem regJ_nan : computeSymptomRegularityJ c8Ex 30 = JSNum.nan := by
  simp only [computeSymptomRegularityJ]
  rw [if_neg (by decide)]
  rw [c8_intensities]
  rw [if_pos (by simp)]
  rw [cvJ_with_pinf]
  rw [show (sCountValues c8Ex).map (fun q => JSNum.fin (q : ℝ))
      = [JSNum.fin ((3:ℚ) : ℝ)] from by
    rw [show sCountValues c8Ex = [(3:ℚ)] from by decide]
    rfl]
  rw [cvJ_single]
  rfl

theorem c8_score_nan : computeHSIScoreJ c8Ex 30 1704103200000 = JSNum.nan := by
  simp only [computeHSIScoreJ]
  rw [show windowFilter c8Ex 30 1704103200000 = c8Ex from by decide]
  rw [show c8Ex.filter (fun e => e.eventType = .symptom) = c8Ex from by decide]
  rw [regJ_nan]
  rfl

/-- C8: the claimed universal [0, 100] bounds FAIL in the stateless scorer.
With three same-day symptom events whose intensities are "5/0", "3" and "4",
the fraction path of parseIntensity divides by zero: the parsed intensity is
+Infinity, the intensity CV is NaN, and NaN propagates through Math.min,
Math.max and Math.round to a NaN symptomRegularity and a NaN composite
score, which neither 0 <= score nor score <= 100 admits.  The
persistence-backed computeHSI, whose parseIntensity divides only by the
constant 10, does keep its score in [0, 100] for every input. -/
theorem c8_hsi_score_nan_escape :
    parseIntensityJ (some "5/0") = some JSNum.pinf
    ∧ computeSymptomRegularityJ c8Ex 30 = JSNum.nan
    ∧ computeHSIScoreJ c8Ex 30 1704103200000 = JSNum.nan
    ∧ JSNum.jsLeJ (.fin 0) (computeHSIScoreJ c8Ex 30 1704103200000) = false
    ∧ JSNum.jsLeJ (computeHSIScoreJ c8Ex 30 1704103200000) (.fin 100) = false
    ∧ (∀ events windowDays now,
        0 ≤ (computeHSIP events windowDays now).score
        ∧ (computeHSIP events windowDays now).score ≤ 100) := by
  refine ⟨parseJ_frac, regJ_nan, c8_score_nan, ?_, ?_, ?_⟩
  · rw [c8_score_nan]
    rfl
  · rw [c8_score_nan]
    rfl
  · intro events windowDays now
    exact (hsi_bounds_finite_model events windowDays now).2.2.2.2.2.1

end HealthIQ
